import Mathlib

/-!
# Verification of the Telegram support-bot routing core

Shallow embedding of the repository's source:

* `src/unnamed/part_000` (the drizzle schema) gives the four entity kinds
  `User`, `Conversation`, `Message`, `SupportIssue` and their insert shapes.
* `src/server/routes.ts` gives the in-memory record store `MemStorage`
  (JS `Map`s keyed by the monotonically assigned integer id; we model each
  map as its value list in insertion order, with `setRec` playing the role
  of `Map.set`: replace the entry with the given key in place, append when
  the key is new).
* `src/server/telegram.ts` gives the routing core
  (`handleUserDirectMessage`, `handleSupportGroupMessage`) together with
  the media helpers `getMediaType` / `getMediaUrl` / `getFileId`.

Timestamps (`new Date()`) are modelled by an explicit clock value
`now : Nat` passed to every operation.  Outbound platform calls
(`bot.sendMessage`, `bot.sendPhoto`, …) are collected in a trace of
`OutCall` values; the results the bot client returns (profile-photo link,
the intro message's id, success of `createForumTopic`) are supplied by a
`RouterEnv` oracle, matching the best-effort try/catch structure of the
source.
-/

namespace TelegramSupport

/-! ## Data model (src/unnamed/part_000) -/

/-- `users` table row. -/
structure User where
  id : Nat
  telegramId : String
  username : Option String
  firstName : String
  lastName : Option String
  languageCode : Option String
  isPremium : Bool
  bio : Option String
  joinedAt : Nat
  profilePhoto : Option String
deriving DecidableEq, Repr

/-- `insertUserSchema`: a `users` row minus `id` and `joinedAt`. -/
structure InsertUser where
  telegramId : String
  username : Option String
  firstName : String
  lastName : Option String
  languageCode : Option String
  isPremium : Bool
  bio : Option String
  profilePhoto : Option String
deriving DecidableEq, Repr

/-- `conversations` table row. -/
structure Conversation where
  id : Nat
  telegramUserId : String
  threadId : Option String
  status : String
  lastMessageAt : Nat
  createdAt : Nat
deriving DecidableEq, Repr

/-- `insertConversationSchema`: a `conversations` row minus `id`,
`lastMessageAt`, `createdAt`. -/
structure InsertConversation where
  telegramUserId : String
  threadId : Option String
  status : String
deriving DecidableEq, Repr

/-- `messages` table row. -/
structure Message where
  id : Nat
  conversationId : Nat
  telegramMessageId : Option String
  senderId : String
  senderType : String
  senderName : Option String
  content : Option String
  mediaType : Option String
  mediaUrl : Option String
  sentAt : Nat
deriving DecidableEq, Repr

/-- `insertMessageSchema`: a `messages` row minus `id` and `sentAt`. -/
structure InsertMessage where
  conversationId : Nat
  telegramMessageId : Option String
  senderId : String
  senderType : String
  senderName : Option String
  content : Option String
  mediaType : Option String
  mediaUrl : Option String
deriving DecidableEq, Repr

/-- `support_issues` table row. -/
structure SupportIssue where
  id : Nat
  userId : String
  conversationId : Nat
  title : String
  status : String
  openedAt : Nat
  closedAt : Option Nat
  assignedTo : Option String
deriving DecidableEq, Repr

/-- `insertSupportIssueSchema`: a `support_issues` row minus `id`,
`openedAt`, `closedAt`. -/
structure InsertSupportIssue where
  userId : String
  conversationId : Nat
  title : String
  status : String
  assignedTo : Option String
deriving DecidableEq, Repr

/-! ## Partial updates

`Partial<InsertUser>` / `Partial<InsertConversation>`: each field may be
present (to be merged by object spread) or absent. -/

structure UserUpdates where
  telegramId : Option String
  username : Option (Option String)
  firstName : Option String
  lastName : Option (Option String)
  languageCode : Option (Option String)
  isPremium : Option Bool
  bio : Option (Option String)
  profilePhoto : Option (Option String)
deriving DecidableEq, Repr

/-- The empty partial update `{}`. -/
def noUserUpdates : UserUpdates := ⟨none, none, none, none, none, none, none, none⟩

/-- `{ profilePhoto: fileLink }` as passed in `handleUserDirectMessage`. -/
def profilePhotoUpdate (link : String) : UserUpdates :=
  ⟨none, none, none, none, none, none, none, some (some link)⟩

/-- `{ ...user, ...updates }`: merge present fields into the row. -/
def applyUserUpdates (u : User) (up : UserUpdates) : User :=
  { u with
    telegramId := up.telegramId.getD u.telegramId
    username := up.username.getD u.username
    firstName := up.firstName.getD u.firstName
    lastName := up.lastName.getD u.lastName
    languageCode := up.languageCode.getD u.languageCode
    isPremium := up.isPremium.getD u.isPremium
    bio := up.bio.getD u.bio
    profilePhoto := up.profilePhoto.getD u.profilePhoto }

structure ConversationUpdates where
  telegramUserId : Option String
  threadId : Option (Option String)
  status : Option String
deriving DecidableEq, Repr

/-- The empty partial update `{}`. -/
def noConvUpdates : ConversationUpdates := ⟨none, none, none⟩

/-- `{ threadId: t }` as passed in `handleUserDirectMessage`. -/
def threadIdUpdate (t : String) : ConversationUpdates := ⟨none, some (some t), none⟩

/-- `{ ...conversation, ...updates }` (without the `lastMessageAt` refresh,
which `updateConversation` adds on top). -/
def applyConvUpdates (c : Conversation) (up : ConversationUpdates) : Conversation :=
  { c with
    telegramUserId := up.telegramUserId.getD c.telegramUserId
    threadId := up.threadId.getD c.threadId
    status := up.status.getD c.status }

/-! ## The in-memory store (src/server/routes.ts, class MemStorage)

Each JS `Map<number, T>` is modelled as its list of values in insertion
order.  `setRec` is `Map.set`: replace the (unique) entry with the given
key in place, append if the key is absent. -/

def setRec {α : Type} (idOf : α → Nat) (id : Nat) (v : α) : List α → List α
  | [] => [v]
  | x :: xs => if idOf x == id then v :: xs else x :: setRec idOf id v xs

structure MemStorage where
  users : List User
  conversations : List Conversation
  messages : List Message
  supportIssues : List SupportIssue
  currentUserId : Nat
  currentConversationId : Nat
  currentMessageId : Nat
  currentSupportIssueId : Nat
deriving DecidableEq, Repr

/-- The store produced by the `MemStorage` constructor. -/
def emptyStorage : MemStorage := ⟨[], [], [], [], 1, 1, 1, 1⟩

/-- Reachable-state invariant of `MemStorage`: JS `Map` keys are unique,
and every assigned id is below the running counter of its kind. -/
def WFStorage (s : MemStorage) : Prop :=
  ((s.users.map User.id).Nodup ∧ ∀ u ∈ s.users, u.id < s.currentUserId) ∧
  ((s.conversations.map Conversation.id).Nodup ∧
    ∀ c ∈ s.conversations, c.id < s.currentConversationId) ∧
  ((s.messages.map Message.id).Nodup ∧ ∀ m ∈ s.messages, m.id < s.currentMessageId) ∧
  ((s.supportIssues.map SupportIssue.id).Nodup ∧
    ∀ i ∈ s.supportIssues, i.id < s.currentSupportIssueId)

instance (s : MemStorage) : Decidable (WFStorage s) := by
  unfold WFStorage; infer_instance

/-! ### User methods -/

def getUser (s : MemStorage) (id : Nat) : Option User :=
  s.users.find? (fun u => u.id == id)

def getUserByTelegramId (s : MemStorage) (telegramId : String) : Option User :=
  s.users.find? (fun u => u.telegramId == telegramId)

def createUser (s : MemStorage) (now : Nat) (iu : InsertUser) : User × MemStorage :=
  let id := s.currentUserId
  let u : User :=
    { id := id
      telegramId := iu.telegramId
      username := iu.username
      firstName := iu.firstName
      lastName := iu.lastName
      languageCode := iu.languageCode
      isPremium := iu.isPremium
      bio := iu.bio
      joinedAt := now
      profilePhoto := iu.profilePhoto }
  (u, { s with users := setRec User.id id u s.users, currentUserId := id + 1 })

def updateUser (s : MemStorage) (id : Nat) (up : UserUpdates) :
    Option User × MemStorage :=
  match getUser s id with
  | none => (none, s)
  | some u =>
      let u' := applyUserUpdates u up
      (some u', { s with users := setRec User.id id u' s.users })

/-! ### Conversation methods -/

def getConversation (s : MemStorage) (id : Nat) : Option Conversation :=
  s.conversations.find? (fun c => c.id == id)

def getConversationByTelegramUserId (s : MemStorage) (telegramUserId : String) :
    Option Conversation :=
  s.conversations.find? (fun c => c.telegramUserId == telegramUserId)

/-- `conversation.threadId === threadId` compares an optional string with a
string, so a `null` thread reference never matches. -/
def getConversationByThreadId (s : MemStorage) (threadId : String) :
    Option Conversation :=
  s.conversations.find? (fun c => c.threadId == some threadId)

def createConversation (s : MemStorage) (now : Nat) (ic : InsertConversation) :
    Conversation × MemStorage :=
  let id := s.currentConversationId
  let c : Conversation :=
    { id := id
      telegramUserId := ic.telegramUserId
      threadId := ic.threadId
      status := ic.status
      lastMessageAt := now
      createdAt := now }
  (c, { s with conversations := setRec Conversation.id id c s.conversations,
               currentConversationId := id + 1 })

/-- Merge the given fields and refresh `lastMessageAt` on every update. -/
def updateConversation (s : MemStorage) (now : Nat) (id : Nat)
    (up : ConversationUpdates) : Option Conversation × MemStorage :=
  match getConversation s id with
  | none => (none, s)
  | some c =>
      let c' := { applyConvUpdates c up with lastMessageAt := now }
      (some c', { s with conversations := setRec Conversation.id id c' s.conversations })

def listConversations (s : MemStorage) (limit : Nat) : List Conversation :=
  (s.conversations.insertionSort (fun a b => b.lastMessageAt ≤ a.lastMessageAt)).take limit

/-! ### Message methods -/

def getMessage (s : MemStorage) (id : Nat) : Option Message :=
  s.messages.find? (fun m => m.id == id)

/-- Store a message, then refresh the parent conversation's
`lastMessageAt` via an empty `updateConversation`. -/
def createMessage (s : MemStorage) (now : Nat) (im : InsertMessage) :
    Message × MemStorage :=
  let id := s.currentMessageId
  let msg : Message :=
    { id := id
      conversationId := im.conversationId
      telegramMessageId := im.telegramMessageId
      senderId := im.senderId
      senderType := im.senderType
      senderName := im.senderName
      content := im.content
      mediaType := im.mediaType
      mediaUrl := im.mediaUrl
      sentAt := now }
  let s1 := { s with messages := setRec Message.id id msg s.messages,
                     currentMessageId := id + 1 }
  match getConversation s1 msg.conversationId with
  | some c => (msg, (updateConversation s1 now c.id noConvUpdates).2)
  | none => (msg, s1)

/-- Ordering used by `getMessagesByConversationId`'s stable ascending sort
(the JS comparator `a.sentAt - b.sentAt`). -/
def sentLe (a b : Message) : Prop := a.sentAt ≤ b.sentAt

instance : DecidableRel sentLe := fun a b => Nat.decLe a.sentAt b.sentAt

/-- JS `slice(-limit)`: the last `limit` elements — except that
`slice(-0) = slice(0)` returns the whole array. -/
def sliceLast {α : Type} (l : List α) (limit : Nat) : List α :=
  if limit == 0 then l else l.drop (l.length - limit)

/-- Filter by conversation, stable-sort ascending by `sentAt`
(JS `Array.prototype.sort` is stable), then `slice(-limit)`.
The source's default for `limit` is 50. -/
def getMessagesByConversationId (s : MemStorage) (conversationId : Nat)
    (limit : Nat) : List Message :=
  sliceLast
    ((s.messages.filter (fun m => m.conversationId == conversationId)).insertionSort sentLe)
    limit

/-! ### Support issue methods -/

def getSupportIssue (s : MemStorage) (id : Nat) : Option SupportIssue :=
  s.supportIssues.find? (fun i => i.id == id)

def getSupportIssueByConversationId (s : MemStorage) (conversationId : Nat) :
    Option SupportIssue :=
  s.supportIssues.find? (fun i => i.conversationId == conversationId)

def createSupportIssue (s : MemStorage) (now : Nat) (ii : InsertSupportIssue) :
    SupportIssue × MemStorage :=
  let id := s.currentSupportIssueId
  let issue : SupportIssue :=
    { id := id
      userId := ii.userId
      conversationId := ii.conversationId
      title := ii.title
      status := ii.status
      openedAt := now
      closedAt := none
      assignedTo := ii.assignedTo }
  (issue, { s with supportIssues := setRec SupportIssue.id id issue s.supportIssues,
                   currentSupportIssueId := id + 1 })

/-! ## The routing core (src/server/telegram.ts)

The handlers' interactions with the `node-telegram-bot-api` client are
captured as a trace of `OutCall` values (one per outbound platform call,
in program order).  The data the client would return — the profile-photo
file link, the intro message's `message_id`, and whether
`createForumTopic` throws — are supplied by a `RouterEnv` oracle, which
models the try/catch best-effort structure of the source.  The
module-level mutable `supportGroupId` is passed explicitly. -/

/-- A Telegram `User` as found on `message.from`. -/
structure TgUser where
  id : Nat
  username : Option String
  first_name : String
  last_name : Option String
  language_code : Option String
  is_premium : Bool
deriving DecidableEq, Repr

/-- A Telegram `Message` from the webhook payload.  Each media field is
abstracted to the `file_id` the source extracts from it (for `photo`, the
`file_id` of the largest size, i.e. `photo[photo.length - 1].file_id`). -/
structure TgMessage where
  message_id : Nat
  chatId : Int
  fromUser : Option TgUser
  text : Option String
  caption : Option String
  photo : Option String
  document : Option String
  video : Option String
  audio : Option String
  voice : Option String
  reply_to_message : Option Nat
deriving DecidableEq, Repr

/-- One outbound call on the bot client. -/
inductive OutCall where
  | sendText (dest : String) (text : String) (replyTo : Option Nat)
  | sendPhoto (dest : String) (fileId : String) (caption : Option String) (replyTo : Option Nat)
  | sendDocument (dest : String) (fileId : String) (caption : Option String) (replyTo : Option Nat)
  | sendVideo (dest : String) (fileId : String) (caption : Option String) (replyTo : Option Nat)
  | fetchProfilePhotos (userId : Nat)
  | createForumTopic (dest : String) (title : String)
deriving DecidableEq, Repr

/-- Results of the fallible bot-client calls made while establishing the
support thread. -/
structure RouterEnv where
  /-- `getUserProfilePhotos` + `getFileLink`: `some link` when a photo is
  found and resolved, `none` when there is no photo or the call throws. -/
  profilePhotoLink : Option String
  /-- `message_id` of the intro message returned by `bot.sendMessage`. -/
  threadMessageId : Nat
  /-- does `bot.createForumTopic` succeed (it throws otherwise)? -/
  createTopicOk : Bool
deriving DecidableEq, Repr

/-- `getMediaType`: first media kind present, in the source's check
order photo, document, video, audio, voice. -/
def getMediaType (m : TgMessage) : Option String :=
  if m.photo.isSome then some "photo"
  else if m.document.isSome then some "document"
  else if m.video.isSome then some "video"
  else if m.audio.isSome then some "audio"
  else if m.voice.isSome then some "voice"
  else none

/-- `getFileId`: the `file_id` of the first media present, same order. -/
def getFileId (m : TgMessage) : Option String :=
  if m.photo.isSome then m.photo
  else if m.document.isSome then m.document
  else if m.video.isSome then m.video
  else if m.audio.isSome then m.audio
  else m.voice

/-- `getMediaUrl` just stores the file id. -/
def getMediaUrl (m : TgMessage) : Option String := getFileId m

/-- The one-time welcome sent to a newly created user. -/
def welcomeText : String := "👋 Welcome to our support bot! How can I help you today?"

/-- `message.from.first_name + (message.from.last_name ? \x60 ${last_name}\x60 : '')`. -/
def displayName (fu : TgUser) : String :=
  fu.first_name ++ (match fu.last_name with | some l => " " ++ l | none => "")

/-- The HTML intro posted to the support group before creating a thread.
`new Date().toLocaleString()` is abstracted to the model clock's value. -/
def userInfoText (fu : TgUser) (telegramId : String) (now : Nat) : String :=
  "\n📱 <b>New Support Request</b>\n\n<b>User:</b> " ++ fu.first_name ++ " " ++
    (fu.last_name.getD "") ++
    "\n<b>Username:</b> " ++
    (match fu.username with | some un => "@" ++ un | none => "Not set") ++
    "\n<b>User ID:</b> " ++ telegramId ++
    "\n<b>Language:</b> " ++ (fu.language_code.getD "Unknown") ++
    "\n<b>Premium:</b> " ++ (if fu.is_premium then "Yes" else "No") ++
    "\n<b>Date Joined:</b> " ++ toString now ++ "\n      "

/-- Forwarded text, `<b>${first_name}:</b> ${text}`. -/
def fwdTextUser (fu : TgUser) (t : String) : String :=
  "<b>" ++ fu.first_name ++ ":</b> " ++ t

/-- Media caption on the support side, `<b>${first_name}:</b> ${caption || ''}`. -/
def captionUser (fu : TgUser) (c : Option String) : String :=
  "<b>" ++ fu.first_name ++ ":</b> " ++ c.getD ""

/-- Decimal parser: JS `parseInt` consumes the leading run of digits and
fails (`NaN`) when there is none. -/
def parseDecimalAux : List Char → Nat → Nat
  | [], acc => acc
  | c :: cs, acc =>
      if c.isDigit then parseDecimalAux cs (acc * 10 + (c.toNat - 48)) else acc

def parseDecimal (s : String) : Option Nat :=
  match s.data with
  | [] => none
  | c :: cs => if c.isDigit then some (parseDecimalAux (c :: cs) 0) else none

/-- `parseInt(conversation.threadId || '0')` (the stored thread ids are
decimal strings, the `message_id` rendered by `toString`). -/
def parseThreadRef (o : Option String) : Nat :=
  (parseDecimal (o.getD "0")).getD 0

/-- The `InsertUser` built from the sender's profile fields. -/
def insertUserOf (telegramId : String) (fu : TgUser) : InsertUser :=
  { telegramId := telegramId
    username := fu.username
    firstName := fu.first_name
    lastName := fu.last_name
    languageCode := fu.language_code
    isPremium := fu.is_premium
    bio := none
    profilePhoto := none }

/-- The stored record for an inbound end-user message. -/
def inboundMessageData (conversationId : Nat) (telegramId : String)
    (fu : TgUser) (m : TgMessage) : InsertMessage :=
  { conversationId := conversationId
    telegramMessageId := some (toString m.message_id)
    senderId := telegramId
    senderType := "user"
    senderName := some (displayName fu)
    content := m.text
    mediaType := getMediaType m
    mediaUrl := getMediaUrl m }

/-- The stored record for a support-group (admin) message. -/
def adminMessageData (conversationId : Nat) (fu : TgUser) (m : TgMessage) :
    InsertMessage :=
  { conversationId := conversationId
    telegramMessageId := some (toString m.message_id)
    senderId := toString fu.id
    senderType := "admin"
    senderName := some (displayName fu)
    content := m.text
    mediaType := getMediaType m
    mediaUrl := getMediaUrl m }

/-- Get-or-create the sender's `User`; a fresh user gets the one-time
welcome message (lines 68–91 of telegram.ts). -/
def userStep (s : MemStorage) (now : Nat) (chat : String) (telegramId : String)
    (fu : TgUser) : User × MemStorage × List OutCall :=
  match getUserByTelegramId s telegramId with
  | some u => (u, s, [])
  | none =>
      let p := createUser s now (insertUserOf telegramId fu)
      (p.1, p.2, [OutCall.sendText chat welcomeText none])

/-- Get-or-create the conversation for the sender (lines 93–106). -/
def convStep (s : MemStorage) (now : Nat) (telegramId : String) :
    Conversation × MemStorage :=
  match getConversationByTelegramUserId s telegramId with
  | some c => (c, s)
  | none => createConversation s now
      { telegramUserId := telegramId, threadId := none, status := "open" }

/-- Thread establishment for a conversation without a thread reference
(lines 125–187): best-effort profile-photo fetch and `updateUser`; intro
message to the support group; then `createForumTopic` — on success the
thread reference is stored on the conversation and a pending
`SupportIssue` is created, on failure (the `catch`) nothing else happens. -/
def threadStep (env : RouterEnv) (now : Nat) (s : MemStorage) (sgid : String)
    (fu : TgUser) (telegramId : String) (user : User) (conv : Conversation) :
    Conversation × MemStorage × List OutCall :=
  if conv.threadId.isNone then
    let sA := match env.profilePhotoLink with
      | some link => (updateUser s user.id (profilePhotoUpdate link)).2
      | none => s
    let calls0 := [OutCall.fetchProfilePhotos fu.id,
                   OutCall.sendText sgid (userInfoText fu telegramId now) none,
                   OutCall.createForumTopic sgid fu.first_name]
    if env.createTopicOk then
      let tRef := toString env.threadMessageId
      let sB := (updateConversation sA now conv.id (threadIdUpdate tRef)).2
      let conv' := { conv with threadId := some tRef }
      let sC := (createSupportIssue sB now
        { userId := telegramId
          conversationId := conv'.id
          title := "New Support Request"
          status := "pending"
          assignedTo := none }).2
      (conv', sC, calls0)
    else
      (conv, sA, calls0)
  else (conv, s, [])

/-- Text forward to the support group (lines 189–195): sent whenever the
inbound event carries text, as a reply to `parseInt(threadId || '0')`. -/
def textForwardCalls (sgid : String) (fu : TgUser) (conv : Conversation)
    (m : TgMessage) : List OutCall :=
  match m.text with
  | some t => [OutCall.sendText sgid (fwdTextUser fu t)
      (some (parseThreadRef conv.threadId))]
  | none => []

/-- Media forward to the support group (lines 197–221): only photo,
document and video have a forwarding branch. -/
def userMediaForwardCalls (sgid : String) (fu : TgUser) (conv : Conversation)
    (m : TgMessage) : List OutCall :=
  if m.photo.isSome || m.document.isSome || m.video.isSome ||
      m.audio.isSome || m.voice.isSome then
    match getFileId m with
    | some fid =>
        if m.photo.isSome then
          [OutCall.sendPhoto sgid fid (some (captionUser fu m.caption))
            (some (parseThreadRef conv.threadId))]
        else if m.document.isSome then
          [OutCall.sendDocument sgid fid (some (captionUser fu m.caption))
            (some (parseThreadRef conv.threadId))]
        else if m.video.isSome then
          [OutCall.sendVideo sgid fid (some (captionUser fu m.caption))
            (some (parseThreadRef conv.threadId))]
        else []
    | none => []
  else []

/-- `handleUserDirectMessage` (telegram.ts lines 65–223). -/
def handleUserDirectMessage (sg : Option String) (env : RouterEnv) (now : Nat)
    (s : MemStorage) (m : TgMessage) : MemStorage × List OutCall :=
  match m.fromUser with
  | none => (s, [])
  | some fu =>
      let telegramId := toString fu.id
      let us := userStep s now (toString m.chatId) telegramId fu
      let cs := convStep us.2.1 now telegramId
      let s3 := (createMessage cs.2 now (inboundMessageData cs.1.id telegramId fu m)).2
      match sg with
      | none => (s3, us.2.2)
      | some sgid =>
          let ts := threadStep env now s3 sgid fu telegramId us.1 cs.1
          (ts.2.1,
            us.2.2 ++ ts.2.2 ++ textForwardCalls sgid fu ts.1 m ++
              userMediaForwardCalls sgid fu ts.1 m)

/-- Media forward from the support group to the end user (lines 261–278):
again only photo, document and video, caption carried unchanged. -/
def adminMediaForwardCalls (dest : String) (m : TgMessage) : List OutCall :=
  if m.photo.isSome || m.document.isSome || m.video.isSome ||
      m.audio.isSome || m.voice.isSome then
    match getFileId m with
    | some fid =>
        if m.photo.isSome then [OutCall.sendPhoto dest fid m.caption none]
        else if m.document.isSome then [OutCall.sendDocument dest fid m.caption none]
        else if m.video.isSome then [OutCall.sendVideo dest fid m.caption none]
        else []
    | none => []
  else []

/-- `handleSupportGroupMessage` (telegram.ts lines 228–279). -/
def handleSupportGroupMessage (now : Nat) (s : MemStorage) (m : TgMessage) :
    MemStorage × List OutCall :=
  match m.fromUser, m.reply_to_message with
  | some fu, some rid =>
      (match getConversationByThreadId s (toString rid) with
       | none => (s, [])
       | some conversation =>
           let s1 := (createMessage s now (adminMessageData conversation.id fu m)).2
           let dest := conversation.telegramUserId
           let textCalls := match m.text with
             | some t => [OutCall.sendText dest t none]
             | none => []
           (s1, textCalls ++ adminMediaForwardCalls dest m))
  | _, _ => (s, [])

/-- `handleIncomingMessage` (lines 51–60): route by chat id against the
configured support group. -/
def handleIncomingMessage (sg : Option String) (env : RouterEnv) (now : Nat)
    (s : MemStorage) (m : TgMessage) : MemStorage × List OutCall :=
  match sg with
  | some sgid =>
      if toString m.chatId == sgid then handleSupportGroupMessage now s m
      else handleUserDirectMessage sg env now s m
  | none => handleUserDirectMessage sg env now s m

/-! ## Generic lemmas about `setRec` and `find?` -/

lemma setRec_append_of_forall_ne {α : Type} {idOf : α → Nat} {id : Nat} {v : α}
    {l : List α} (h : ∀ x ∈ l, idOf x ≠ id) : setRec idOf id v l = l ++ [v] := by
  induction l with
  | nil => rfl
  | cons x xs ih =>
      have hx : (idOf x == id) = false := beq_eq_false_iff_ne.mpr (h x (by simp))
      simp [setRec, hx, ih (fun y hy => h y (by simp [hy]))]

lemma length_setRec_of_isSome {α : Type} {idOf : α → Nat} {id : Nat} {v : α}
    {l : List α} (h : (l.find? (fun x => idOf x == id)).isSome) :
    (setRec idOf id v l).length = l.length := by
  induction l with
  | nil => simp at h
  | cons x xs ih =>
      cases hx : idOf x == id with
      | true => simp [setRec, hx]
      | false =>
          have h' : (xs.find? (fun x => idOf x == id)).isSome := by
            simpa [hx] using h
          simp [setRec, hx, ih h']

lemma find?_setRec_self {α : Type} {idOf : α → Nat} {id : Nat} {v : α}
    {l : List α} (hv : (idOf v == id) = true) :
    (setRec idOf id v l).find? (fun x => idOf x == id) = some v := by
  induction l with
  | nil => simp [setRec, hv]
  | cons x xs ih =>
      cases hx : idOf x == id with
      | true => simp [setRec, hx, hv]
      | false => simp [setRec, hx, ih]

/-- Replacing the slot that `find?`-by-id designates, with a value that
agrees on a predicate `q`, does not change whether a `find?` by `q`
succeeds. -/
lemma find?_isSome_setRec_preserve {α : Type} {idOf : α → Nat} {id : Nat}
    {v x : α} {l : List α} (q : α → Bool)
    (h : l.find? (fun y => idOf y == id) = some x) (hq : q v = q x) :
    ((setRec idOf id v l).find? q).isSome = (l.find? q).isSome := by
  induction l with
  | nil => simp at h
  | cons y ys ih =>
      cases hy : idOf y == id with
      | true =>
          have hxy : y = x := by simpa [hy] using h
          subst hxy
          cases hqy : q y with
          | true => simp [setRec, hy, hq, hqy]
          | false => simp [setRec, hy, hq, hqy]
      | false =>
          have h' : ys.find? (fun y => idOf y == id) = some x := by
            simpa [hy] using h
          cases hqy : q y with
          | true => simp [setRec, hy, hqy]
          | false => simp [setRec, hy, hqy, ih h']

/-- Replacing a slot with a value of the same id keeps the id list of the
store unchanged. -/
lemma map_id_setRec {α : Type} {idOf : α → Nat} {id : Nat} {v x : α}
    {l : List α} (h : l.find? (fun y => idOf y == id) = some x)
    (hv : idOf v = idOf x) : (setRec idOf id v l).map idOf = l.map idOf := by
  induction l with
  | nil => simp at h
  | cons y ys ih =>
      cases hy : idOf y == id with
      | true =>
          have hxy : y = x := by simpa [hy] using h
          subst hxy
          simp [setRec, hy, hv]
      | false =>
          have h' : ys.find? (fun y => idOf y == id) = some x := by
            simpa [hy] using h
          simp [setRec, hy, ih h']

lemma find?_append_none {α : Type} {p : α → Bool} {l₁ l₂ : List α}
    (h : l₁.find? p = none) : (l₁ ++ l₂).find? p = l₂.find? p := by
  simp [List.find?_append, h]

lemma find?_isSome_of_mem {α : Type} {p : α → Bool} {l : List α} {x : α}
    (hx : x ∈ l) (hp : p x = true) : (l.find? p).isSome := by
  induction l with
  | nil => cases hx
  | cons y ys ih =>
      cases hy : p y with
      | true => simp [hy]
      | false =>
          rcases List.mem_cons.mp hx with rfl | hx'
          · rw [hp] at hy; cases hy
          · simp [hy, ih hx']

/-- With pairwise-distinct ids, the `find?`-by-id of a member is that
member. -/
lemma find?_id_of_mem_nodup {α : Type} {idOf : α → Nat} {l : List α} {x : α}
    (hn : (l.map idOf).Nodup) (hx : x ∈ l) :
    l.find? (fun y => idOf y == idOf x) = some x := by
  induction l with
  | nil => cases hx
  | cons y ys ih =>
      rw [List.map_cons, List.nodup_cons] at hn
      rcases List.mem_cons.mp hx with rfl | hx'
      · simp
      · have hne : (idOf y == idOf x) = false := by
          refine beq_eq_false_iff_ne.mpr fun hEq => hn.1 ?_
          exact hEq ▸ List.mem_map_of_mem idOf hx'
        simp [hne, ih hn.2 hx']

/-! ## Effect lemmas for the store operations -/

@[simp] lemma applyConvUpdates_none (c : Conversation) :
    applyConvUpdates c noConvUpdates = c := rfl

@[simp] lemma applyConvUpdates_id (c : Conversation) (up : ConversationUpdates) :
    (applyConvUpdates c up).id = c.id := rfl

@[simp] lemma applyUserUpdates_id (u : User) (up : UserUpdates) :
    (applyUserUpdates u up).id = u.id := rfl

/- `createUser` touches only the user map and its counter. -/
@[simp] lemma createUser_conversations (s : MemStorage) (now : Nat) (iu : InsertUser) :
    ((createUser s now iu).2).conversations = s.conversations := rfl
@[simp] lemma createUser_messages (s : MemStorage) (now : Nat) (iu : InsertUser) :
    ((createUser s now iu).2).messages = s.messages := rfl
@[simp] lemma createUser_supportIssues (s : MemStorage) (now : Nat) (iu : InsertUser) :
    ((createUser s now iu).2).supportIssues = s.supportIssues := rfl
@[simp] lemma createUser_currentConversationId (s : MemStorage) (now : Nat) (iu : InsertUser) :
    ((createUser s now iu).2).currentConversationId = s.currentConversationId := rfl
@[simp] lemma createUser_currentMessageId (s : MemStorage) (now : Nat) (iu : InsertUser) :
    ((createUser s now iu).2).currentMessageId = s.currentMessageId := rfl
@[simp] lemma createUser_currentSupportIssueId (s : MemStorage) (now : Nat) (iu : InsertUser) :
    ((createUser s now iu).2).currentSupportIssueId = s.currentSupportIssueId := rfl
@[simp] lemma createUser_fst_telegramId (s : MemStorage) (now : Nat) (iu : InsertUser) :
    ((createUser s now iu).1).telegramId = iu.telegramId := rfl
@[simp] lemma createUser_fst_id (s : MemStorage) (now : Nat) (iu : InsertUser) :
    ((createUser s now iu).1).id = s.currentUserId := rfl

/-- On a well-formed store the fresh id is unused, so `Map.set` appends. -/
lemma createUser_users_fresh {s : MemStorage} (now : Nat) (iu : InsertUser)
    (h : ∀ u ∈ s.users, u.id < s.currentUserId) :
    ((createUser s now iu).2).users = s.users ++ [(createUser s now iu).1] := by
  unfold createUser
  exact setRec_append_of_forall_ne (fun x hx => Nat.ne_of_lt (h x hx))

/- `createConversation` touches only the conversation map and its counter. -/
@[simp] lemma createConversation_users (s : MemStorage) (now : Nat) (ic : InsertConversation) :
    ((createConversation s now ic).2).users = s.users := rfl
@[simp] lemma createConversation_messages (s : MemStorage) (now : Nat) (ic : InsertConversation) :
    ((createConversation s now ic).2).messages = s.messages := rfl
@[simp] lemma createConversation_supportIssues (s : MemStorage) (now : Nat) (ic : InsertConversation) :
    ((createConversation s now ic).2).supportIssues = s.supportIssues := rfl
@[simp] lemma createConversation_currentUserId (s : MemStorage) (now : Nat) (ic : InsertConversation) :
    ((createConversation s now ic).2).currentUserId = s.currentUserId := rfl
@[simp] lemma createConversation_currentMessageId (s : MemStorage) (now : Nat) (ic : InsertConversation) :
    ((createConversation s now ic).2).currentMessageId = s.currentMessageId := rfl
@[simp] lemma createConversation_currentSupportIssueId (s : MemStorage) (now : Nat)
    (ic : InsertConversation) :
    ((createConversation s now ic).2).currentSupportIssueId = s.currentSupportIssueId := rfl
@[simp] lemma createConversation_fst_id (s : MemStorage) (now : Nat) (ic : InsertConversation) :
    ((createConversation s now ic).1).id = s.currentConversationId := rfl
@[simp] lemma createConversation_fst_telegramUserId (s : MemStorage) (now : Nat)
    (ic : InsertConversation) :
    ((createConversation s now ic).1).telegramUserId = ic.telegramUserId := rfl
@[simp] lemma createConversation_fst_threadId (s : MemStorage) (now : Nat)
    (ic : InsertConversation) :
    ((createConversation s now ic).1).threadId = ic.threadId := rfl
@[simp] lemma createConversation_fst_status (s : MemStorage) (now : Nat)
    (ic : InsertConversation) :
    ((createConversation s now ic).1).status = ic.status := rfl

lemma createConversation_conversations_fresh {s : MemStorage} (now : Nat)
    (ic : InsertConversation)
    (h : ∀ c ∈ s.conversations, c.id < s.currentConversationId) :
    ((createConversation s now ic).2).conversations =
      s.conversations ++ [(createConversation s now ic).1] := by
  unfold createConversation
  exact setRec_append_of_forall_ne (fun x hx => Nat.ne_of_lt (h x hx))

/- `createSupportIssue` touches only the issue map and its counter. -/
@[simp] lemma createSupportIssue_users (s : MemStorage) (now : Nat) (ii : InsertSupportIssue) :
    ((createSupportIssue s now ii).2).users = s.users := rfl
@[simp] lemma createSupportIssue_conversations (s : MemStorage) (now : Nat)
    (ii : InsertSupportIssue) :
    ((createSupportIssue s now ii).2).conversations = s.conversations := rfl
@[simp] lemma createSupportIssue_messages (s : MemStorage) (now : Nat) (ii : InsertSupportIssue) :
    ((createSupportIssue s now ii).2).messages = s.messages := rfl
@[simp] lemma createSupportIssue_fst_status (s : MemStorage) (now : Nat) (ii : InsertSupportIssue) :
    ((createSupportIssue s now ii).1).status = ii.status := rfl
@[simp] lemma createSupportIssue_fst_conversationId (s : MemStorage) (now : Nat)
    (ii : InsertSupportIssue) :
    ((createSupportIssue s now ii).1).conversationId = ii.conversationId := rfl
@[simp] lemma createSupportIssue_fst_userId (s : MemStorage) (now : Nat)
    (ii : InsertSupportIssue) :
    ((createSupportIssue s now ii).1).userId = ii.userId := rfl

@[simp] lemma createSupportIssue_fst (s : MemStorage) (now : Nat) (ii : InsertSupportIssue) :
    (createSupportIssue s now ii).1 =
      ⟨s.currentSupportIssueId, ii.userId, ii.conversationId, ii.title, ii.status,
        now, none, ii.assignedTo⟩ := rfl

lemma createSupportIssue_issues_fresh {s : MemStorage} (now : Nat) (ii : InsertSupportIssue)
    (h : ∀ i ∈ s.supportIssues, i.id < s.currentSupportIssueId) :
    ((createSupportIssue s now ii).2).supportIssues =
      s.supportIssues ++ [(createSupportIssue s now ii).1] := by
  unfold createSupportIssue
  exact setRec_append_of_forall_ne (fun x hx => Nat.ne_of_lt (h x hx))

/- `updateUser` leaves everything but the user map alone and never changes
the map's length or its keys. -/
@[simp] lemma updateUser_conversations (s : MemStorage) (id : Nat) (up : UserUpdates) :
    ((updateUser s id up).2).conversations = s.conversations := by
  cases h : getUser s id <;> simp [updateUser, h]
@[simp] lemma updateUser_messages (s : MemStorage) (id : Nat) (up : UserUpdates) :
    ((updateUser s id up).2).messages = s.messages := by
  cases h : getUser s id <;> simp [updateUser, h]
@[simp] lemma updateUser_supportIssues (s : MemStorage) (id : Nat) (up : UserUpdates) :
    ((updateUser s id up).2).supportIssues = s.supportIssues := by
  cases h : getUser s id <;> simp [updateUser, h]
@[simp] lemma updateUser_currentSupportIssueId (s : MemStorage) (id : Nat) (up : UserUpdates) :
    ((updateUser s id up).2).currentSupportIssueId = s.currentSupportIssueId := by
  cases h : getUser s id <;> simp [updateUser, h]
@[simp] lemma updateUser_currentConversationId (s : MemStorage) (id : Nat) (up : UserUpdates) :
    ((updateUser s id up).2).currentConversationId = s.currentConversationId := by
  cases h : getUser s id <;> simp [updateUser, h]
@[simp] lemma updateUser_currentMessageId (s : MemStorage) (id : Nat) (up : UserUpdates) :
    ((updateUser s id up).2).currentMessageId = s.currentMessageId := by
  cases h : getUser s id <;> simp [updateUser, h]

@[simp] lemma updateUser_users_length (s : MemStorage) (id : Nat) (up : UserUpdates) :
    ((updateUser s id up).2).users.length = s.users.length := by
  cases h : getUser s id with
  | none => simp [updateUser, h]
  | some u =>
      have hs : (s.users.find? (fun x => x.id == id)).isSome := by
        unfold getUser at h; simp [h]
      simp [updateUser, h, length_setRec_of_isSome hs]

/-- A partial update that does not touch `telegramId` cannot change
whether a user with a given `telegramId` exists. -/
lemma updateUser_lookup_isSome (s : MemStorage) (id : Nat) (up : UserUpdates)
    (tid : String) (hup : up.telegramId = none) :
    (getUserByTelegramId ((updateUser s id up).2) tid).isSome =
      (getUserByTelegramId s tid).isSome := by
  cases h : getUser s id with
  | none => simp [updateUser, h]
  | some u =>
      unfold getUser at h
      unfold updateUser getUserByTelegramId
      simp only [getUser, h]
      exact find?_isSome_setRec_preserve _ h (by simp [applyUserUpdates, hup])

/- `updateConversation` leaves everything but the conversation map alone
and never changes the map's length or its keys. -/
@[simp] lemma updateConversation_users (s : MemStorage) (now id : Nat)
    (up : ConversationUpdates) :
    ((updateConversation s now id up).2).users = s.users := by
  cases h : getConversation s id <;> simp [updateConversation, h]
@[simp] lemma updateConversation_messages (s : MemStorage) (now id : Nat)
    (up : ConversationUpdates) :
    ((updateConversation s now id up).2).messages = s.messages := by
  cases h : getConversation s id <;> simp [updateConversation, h]
@[simp] lemma updateConversation_supportIssues (s : MemStorage) (now id : Nat)
    (up : ConversationUpdates) :
    ((updateConversation s now id up).2).supportIssues = s.supportIssues := by
  cases h : getConversation s id <;> simp [updateConversation, h]
@[simp] lemma updateConversation_currentSupportIssueId (s : MemStorage) (now id : Nat)
    (up : ConversationUpdates) :
    ((updateConversation s now id up).2).currentSupportIssueId = s.currentSupportIssueId := by
  cases h : getConversation s id <;> simp [updateConversation, h]
@[simp] lemma updateConversation_currentUserId (s : MemStorage) (now id : Nat)
    (up : ConversationUpdates) :
    ((updateConversation s now id up).2).currentUserId = s.currentUserId := by
  cases h : getConversation s id <;> simp [updateConversation, h]
@[simp] lemma updateConversation_currentMessageId (s : MemStorage) (now id : Nat)
    (up : ConversationUpdates) :
    ((updateConversation s now id up).2).currentMessageId = s.currentMessageId := by
  cases h : getConversation s id <;> simp [updateConversation, h]
@[simp] lemma updateConversation_currentConversationId (s : MemStorage) (now id : Nat)
    (up : ConversationUpdates) :
    ((updateConversation s now id up).2).currentConversationId = s.currentConversationId := by
  cases h : getConversation s id <;> simp [updateConversation, h]

@[simp] lemma updateConversation_conversations_length (s : MemStorage) (now id : Nat)
    (up : ConversationUpdates) :
    ((updateConversation s now id up).2).conversations.length = s.conversations.length := by
  cases h : getConversation s id with
  | none => simp [updateConversation, h]
  | some c =>
      have hs : (s.conversations.find? (fun x => x.id == id)).isSome := by
        unfold getConversation at h; simp [h]
      simp [updateConversation, h, length_setRec_of_isSome hs]

@[simp] lemma updateConversation_conversations_map_id (s : MemStorage) (now id : Nat)
    (up : ConversationUpdates) :
    ((updateConversation s now id up).2).conversations.map Conversation.id =
      s.conversations.map Conversation.id := by
  cases h : getConversation s id with
  | none => simp [updateConversation, h]
  | some c =>
      unfold getConversation at h
      unfold updateConversation
      simp only [getConversation, h]
      exact map_id_setRec h rfl

/-- The record returned by `getConversation` right after an update at the
same id is the merged record with the refreshed `lastMessageAt`. -/
lemma getConversation_updateConversation_same {s : MemStorage} {now id : Nat}
    {up : ConversationUpdates} {c : Conversation}
    (h : getConversation s id = some c) :
    getConversation ((updateConversation s now id up).2) id =
      some { applyConvUpdates c up with lastMessageAt := now } := by
  have hc : (c.id == id) = true := by
    unfold getConversation at h
    have hp := List.find?_some h
    simpa using hp
  unfold getConversation at h ⊢
  unfold updateConversation
  simp only [getConversation, h]
  exact find?_setRec_self (by simpa using hc)

/-- A partial update that does not touch `telegramUserId` cannot change
whether a conversation for a given user exists. -/
lemma updateConversation_lookup_isSome (s : MemStorage) (now id : Nat)
    (up : ConversationUpdates) (tid : String) (hup : up.telegramUserId = none) :
    (getConversationByTelegramUserId ((updateConversation s now id up).2) tid).isSome =
      (getConversationByTelegramUserId s tid).isSome := by
  cases h : getConversation s id with
  | none => simp [updateConversation, h]
  | some c =>
      unfold getConversation at h
      unfold updateConversation getConversationByTelegramUserId
      simp only [getConversation, h]
      exact find?_isSome_setRec_preserve _ h (by simp [applyConvUpdates, hup])

/- The lookups depend only on the map they read. -/
lemma getUserByTelegramId_congr {s₁ s₂ : MemStorage} (h : s₁.users = s₂.users)
    (tid : String) : getUserByTelegramId s₁ tid = getUserByTelegramId s₂ tid := by
  unfold getUserByTelegramId; rw [h]

lemma getConversationByTelegramUserId_congr {s₁ s₂ : MemStorage}
    (h : s₁.conversations = s₂.conversations) (tid : String) :
    getConversationByTelegramUserId s₁ tid = getConversationByTelegramUserId s₂ tid := by
  unfold getConversationByTelegramUserId; rw [h]

lemma getConversation_congr {s₁ s₂ : MemStorage}
    (h : s₁.conversations = s₂.conversations) (id : Nat) :
    getConversation s₁ id = getConversation s₂ id := by
  unfold getConversation; rw [h]

@[simp] lemma getConversation_set_messages (s : MemStorage) (M : List Message)
    (n : Nat) (id : Nat) :
    getConversation { s with messages := M, currentMessageId := n } id =
      getConversation s id := rfl

/- `createMessage` effect lemmas. -/
@[simp] lemma createMessage_users (s : MemStorage) (now : Nat) (im : InsertMessage) :
    ((createMessage s now im).2).users = s.users := by
  simp only [createMessage]
  split <;> simp

@[simp] lemma createMessage_supportIssues (s : MemStorage) (now : Nat) (im : InsertMessage) :
    ((createMessage s now im).2).supportIssues = s.supportIssues := by
  simp only [createMessage]
  split <;> simp

@[simp] lemma createMessage_currentUserId (s : MemStorage) (now : Nat) (im : InsertMessage) :
    ((createMessage s now im).2).currentUserId = s.currentUserId := by
  simp only [createMessage]
  split <;> simp

@[simp] lemma createMessage_currentConversationId (s : MemStorage) (now : Nat)
    (im : InsertMessage) :
    ((createMessage s now im).2).currentConversationId = s.currentConversationId := by
  simp only [createMessage]
  split <;> simp

@[simp] lemma createMessage_currentSupportIssueId (s : MemStorage) (now : Nat)
    (im : InsertMessage) :
    ((createMessage s now im).2).currentSupportIssueId = s.currentSupportIssueId := by
  simp only [createMessage]
  split <;> simp

@[simp] lemma createMessage_conversations_length (s : MemStorage) (now : Nat)
    (im : InsertMessage) :
    ((createMessage s now im).2).conversations.length = s.conversations.length := by
  simp only [createMessage]
  split <;> simp

@[simp] lemma createMessage_conversations_map_id (s : MemStorage) (now : Nat)
    (im : InsertMessage) :
    ((createMessage s now im).2).conversations.map Conversation.id =
      s.conversations.map Conversation.id := by
  simp only [createMessage]
  split <;> simp

@[simp] lemma createMessage_conv_lookup_isSome (s : MemStorage) (now : Nat)
    (im : InsertMessage) (tid : String) :
    (getConversationByTelegramUserId ((createMessage s now im).2) tid).isSome =
      (getConversationByTelegramUserId s tid).isSome := by
  simp only [createMessage]
  split
  · rw [updateConversation_lookup_isSome _ _ _ _ _ rfl]; rfl
  · rfl

@[simp] lemma createMessage_fst (s : MemStorage) (now : Nat) (im : InsertMessage) :
    (createMessage s now im).1 =
      { id := s.currentMessageId
        conversationId := im.conversationId
        telegramMessageId := im.telegramMessageId
        senderId := im.senderId
        senderType := im.senderType
        senderName := im.senderName
        content := im.content
        mediaType := im.mediaType
        mediaUrl := im.mediaUrl
        sentAt := now } := by
  simp only [createMessage]
  split <;> rfl

lemma updateConversation_set_messages (s : MemStorage) (M : List Message)
    (n now id : Nat) (up : ConversationUpdates) :
    (updateConversation { s with messages := M, currentMessageId := n } now id up).2 =
      { (updateConversation s now id up).2 with messages := M, currentMessageId := n } := by
  cases h : getConversation s id <;>
    simp [updateConversation, getConversation_set_messages, h]

lemma createMessage_messages_fresh {s : MemStorage} (now : Nat) (im : InsertMessage)
    (h : ∀ x ∈ s.messages, x.id < s.currentMessageId) :
    ((createMessage s now im).2).messages = s.messages ++ [(createMessage s now im).1] := by
  simp only [createMessage]
  split <;> simp <;>
    exact setRec_append_of_forall_ne (fun x hx => Nat.ne_of_lt (h x hx))

lemma createMessage_getConversation_same {s : MemStorage} {now : Nat}
    {im : InsertMessage} {c : Conversation}
    (h : getConversation s im.conversationId = some c) :
    getConversation ((createMessage s now im).2) im.conversationId =
      some { c with lastMessageAt := now } := by
  have hcid : c.id = im.conversationId := by
    unfold getConversation at h
    have hp := List.find?_some h
    simpa using hp
  have h' : getConversation s c.id = some c := by rw [hcid]; exact h
  simp only [createMessage, getConversation_set_messages, h]
  rw [updateConversation_set_messages, getConversation_set_messages, ← hcid]
  simpa using getConversation_updateConversation_same h'

/-! ## Counting outbound calls -/

/-- Is this call the welcome message sent to the given chat? -/
def isWelcomeCall (chat : String) : OutCall → Bool
  | OutCall.sendText d t r => d == chat && t == welcomeText && r.isNone
  | _ => false

def welcomeCount (chat : String) (calls : List OutCall) : Nat :=
  calls.countP (isWelcomeCall chat)

/-- Is this call a media forward (photo, document or video)? -/
def isMediaSend : OutCall → Bool
  | OutCall.sendPhoto _ _ _ _ => true
  | OutCall.sendDocument _ _ _ _ => true
  | OutCall.sendVideo _ _ _ _ => true
  | _ => false

@[simp] lemma welcomeCount_nil (chat : String) : welcomeCount chat [] = 0 := rfl

lemma welcomeCount_append (chat : String) (l₁ l₂ : List OutCall) :
    welcomeCount chat (l₁ ++ l₂) = welcomeCount chat l₁ + welcomeCount chat l₂ :=
  List.countP_append _ _ _

@[simp] lemma welcomeCount_welcome (chat : String) :
    welcomeCount chat [OutCall.sendText chat welcomeText none] = 1 := by
  simp [welcomeCount, isWelcomeCall]

@[simp] lemma welcomeCount_textForward (chat sgid : String) (fu : TgUser)
    (conv : Conversation) (m : TgMessage) :
    welcomeCount chat (textForwardCalls sgid fu conv m) = 0 := by
  cases h : m.text <;> simp [textForwardCalls, h, welcomeCount, isWelcomeCall]

@[simp] lemma welcomeCount_userMedia (chat sgid : String) (fu : TgUser)
    (conv : Conversation) (m : TgMessage) :
    welcomeCount chat (userMediaForwardCalls sgid fu conv m) = 0 := by
  unfold userMediaForwardCalls
  repeat' split
  all_goals simp [welcomeCount, isWelcomeCall]

/-! ## Step lemmas for the user-direct-message handler -/

lemma userStep_found {s : MemStorage} {tid : String} {u : User} (now : Nat)
    (chat : String) (fu : TgUser) (h : getUserByTelegramId s tid = some u) :
    userStep s now chat tid fu = (u, s, []) := by
  simp [userStep, h]

lemma userStep_none {s : MemStorage} {tid : String} (now : Nat) (chat : String)
    (fu : TgUser) (h : getUserByTelegramId s tid = none) :
    userStep s now chat tid fu =
      ((createUser s now (insertUserOf tid fu)).1,
        (createUser s now (insertUserOf tid fu)).2,
        [OutCall.sendText chat welcomeText none]) := by
  simp [userStep, h]

lemma convStep_found {s : MemStorage} {tid : String} {c : Conversation} (now : Nat)
    (h : getConversationByTelegramUserId s tid = some c) :
    convStep s now tid = (c, s) := by
  simp [convStep, h]

lemma convStep_none {s : MemStorage} {tid : String} (now : Nat)
    (h : getConversationByTelegramUserId s tid = none) :
    convStep s now tid =
      createConversation s now { telegramUserId := tid, threadId := none, status := "open" } := by
  simp [convStep, h]

/-- The calls made while establishing a thread depend only on whether the
conversation already has one. -/
lemma threadStep_calls (env : RouterEnv) (now : Nat) (s : MemStorage)
    (sgid : String) (fu : TgUser) (tid : String) (user : User) (conv : Conversation) :
    (threadStep env now s sgid fu tid user conv).2.2 =
      if conv.threadId.isNone then
        [OutCall.fetchProfilePhotos fu.id,
         OutCall.sendText sgid (userInfoText fu tid now) none,
         OutCall.createForumTopic sgid fu.first_name]
      else [] := by
  unfold threadStep
  by_cases hT : conv.threadId.isNone <;>
    cases hE : env.createTopicOk <;>
    cases hP : env.profilePhotoLink <;>
    simp [hT, hE, hP]

@[simp] lemma threadStep_users_length (env : RouterEnv) (now : Nat) (s : MemStorage)
    (sgid : String) (fu : TgUser) (tid : String) (user : User) (conv : Conversation) :
    ((threadStep env now s sgid fu tid user conv).2.1).users.length = s.users.length := by
  unfold threadStep
  by_cases hT : conv.threadId.isNone <;>
    cases hE : env.createTopicOk <;>
    cases hP : env.profilePhotoLink <;>
    simp [hT, hE, hP]

@[simp] lemma threadStep_conversations_length (env : RouterEnv) (now : Nat)
    (s : MemStorage) (sgid : String) (fu : TgUser) (tid : String) (user : User)
    (conv : Conversation) :
    ((threadStep env now s sgid fu tid user conv).2.1).conversations.length =
      s.conversations.length := by
  unfold threadStep
  by_cases hT : conv.threadId.isNone <;>
    cases hE : env.createTopicOk <;>
    cases hP : env.profilePhotoLink <;>
    simp [hT, hE, hP]

@[simp] lemma threadStep_messages (env : RouterEnv) (now : Nat) (s : MemStorage)
    (sgid : String) (fu : TgUser) (tid : String) (user : User) (conv : Conversation) :
    ((threadStep env now s sgid fu tid user conv).2.1).messages = s.messages := by
  unfold threadStep
  by_cases hT : conv.threadId.isNone <;>
    cases hE : env.createTopicOk <;>
    cases hP : env.profilePhotoLink <;>
    simp [hT, hE, hP]

/- Lookups through operations that do not touch the relevant map. -/
@[simp] lemma getUserByTelegramId_createSupportIssue (s : MemStorage) (now : Nat)
    (ii : InsertSupportIssue) (t : String) :
    getUserByTelegramId ((createSupportIssue s now ii).2) t = getUserByTelegramId s t := rfl

@[simp] lemma getUserByTelegramId_createConversation (s : MemStorage) (now : Nat)
    (ic : InsertConversation) (t : String) :
    getUserByTelegramId ((createConversation s now ic).2) t = getUserByTelegramId s t := rfl

@[simp] lemma getUserByTelegramId_updateConversation (s : MemStorage) (now id : Nat)
    (up : ConversationUpdates) (t : String) :
    getUserByTelegramId ((updateConversation s now id up).2) t = getUserByTelegramId s t := by
  unfold getUserByTelegramId
  rw [updateConversation_users]

@[simp] lemma getUserByTelegramId_createMessage (s : MemStorage) (now : Nat)
    (im : InsertMessage) (t : String) :
    getUserByTelegramId ((createMessage s now im).2) t = getUserByTelegramId s t := by
  unfold getUserByTelegramId
  rw [createMessage_users]

@[simp] lemma getConversationByTelegramUserId_createSupportIssue (s : MemStorage)
    (now : Nat) (ii : InsertSupportIssue) (t : String) :
    getConversationByTelegramUserId ((createSupportIssue s now ii).2) t =
      getConversationByTelegramUserId s t := rfl

@[simp] lemma getConversationByTelegramUserId_createUser (s : MemStorage) (now : Nat)
    (iu : InsertUser) (t : String) :
    getConversationByTelegramUserId ((createUser s now iu).2) t =
      getConversationByTelegramUserId s t := rfl

@[simp] lemma getConversationByTelegramUserId_updateUser (s : MemStorage) (id : Nat)
    (up : UserUpdates) (t : String) :
    getConversationByTelegramUserId ((updateUser s id up).2) t =
      getConversationByTelegramUserId s t := by
  unfold getConversationByTelegramUserId
  rw [updateUser_conversations]

@[simp] lemma threadStep_user_lookup (env : RouterEnv) (now : Nat) (s : MemStorage)
    (sgid : String) (fu : TgUser) (tid : String) (user : User) (conv : Conversation)
    (t : String) :
    (getUserByTelegramId ((threadStep env now s sgid fu tid user conv).2.1) t).isSome =
      (getUserByTelegramId s t).isSome := by
  unfold threadStep
  by_cases hT : conv.threadId.isNone <;>
    cases hE : env.createTopicOk <;>
    cases hP : env.profilePhotoLink <;>
    simp [hT, hE, hP]
  all_goals exact updateUser_lookup_isSome _ _ _ _ rfl

@[simp] lemma threadStep_conv_lookup (env : RouterEnv) (now : Nat) (s : MemStorage)
    (sgid : String) (fu : TgUser) (tid : String) (user : User) (conv : Conversation)
    (t : String) :
    (getConversationByTelegramUserId ((threadStep env now s sgid fu tid user conv).2.1) t).isSome =
      (getConversationByTelegramUserId s t).isSome := by
  unfold threadStep
  by_cases hT : conv.threadId.isNone <;>
    cases hE : env.createTopicOk <;>
    cases hP : env.profilePhotoLink <;>
    simp [hT, hE, hP]
  all_goals rw [updateConversation_lookup_isSome _ _ _ _ _ rfl]
  all_goals simp

/-- The conversation value carried forward by `threadStep`. -/
lemma threadStep_fst (env : RouterEnv) (now : Nat) (s : MemStorage)
    (sgid : String) (fu : TgUser) (tid : String) (user : User) (conv : Conversation) :
    (threadStep env now s sgid fu tid user conv).1 =
      if conv.threadId.isNone ∧ env.createTopicOk then
        { conv with threadId := some (toString env.threadMessageId) }
      else conv := by
  unfold threadStep
  by_cases hT : conv.threadId.isNone <;>
    cases hE : env.createTopicOk <;>
    cases hP : env.profilePhotoLink <;>
    simp [hT, hE, hP]

lemma welcomeCount_threadCalls {sgid chat : String} (env : RouterEnv) (now : Nat)
    (s : MemStorage) (fu : TgUser) (tid : String) (user : User)
    (conv : Conversation) (hne : sgid ≠ chat) :
    welcomeCount chat ((threadStep env now s sgid fu tid user conv).2.2) = 0 := by
  rw [threadStep_calls]
  split <;> simp [welcomeCount, isWelcomeCall, beq_eq_false_iff_ne.mpr hne]

/-- Processing a direct message from a sender with no `User` and no
`Conversation` on record: one user appended, one conversation appended,
both lookups succeed afterwards, and exactly one welcome message goes to
the sender's chat. -/
lemma handleUser_fresh_spec (sg : Option String) (env : RouterEnv) (now : Nat)
    (s : MemStorage) (m : TgMessage) (fu : TgUser)
    (hfu : m.fromUser = some fu)
    (hwfU : ∀ u ∈ s.users, u.id < s.currentUserId)
    (hwfC : ∀ c ∈ s.conversations, c.id < s.currentConversationId)
    (hU : getUserByTelegramId s (toString fu.id) = none)
    (hC : getConversationByTelegramUserId s (toString fu.id) = none) :
    (handleUserDirectMessage sg env now s m).1.users.length = s.users.length + 1 ∧
    (handleUserDirectMessage sg env now s m).1.conversations.length =
      s.conversations.length + 1 ∧
    (getUserByTelegramId (handleUserDirectMessage sg env now s m).1 (toString fu.id)).isSome ∧
    (getConversationByTelegramUserId (handleUserDirectMessage sg env now s m).1
      (toString fu.id)).isSome ∧
    (sg ≠ some (toString m.chatId) →
      welcomeCount (toString m.chatId) (handleUserDirectMessage sg env now s m).2 = 1) := by
  have hC1 : getConversationByTelegramUserId
      ((createUser s now (insertUserOf (toString fu.id) fu)).2) (toString fu.id) = none := by
    simpa using hC
  have hwfC1 : ∀ c ∈ ((createUser s now (insertUserOf (toString fu.id) fu)).2).conversations,
      c.id < ((createUser s now (insertUserOf (toString fu.id) fu)).2).currentConversationId := by
    simpa using hwfC
  have husers : ∀ t : MemStorage, t.users = s.users ++
        [(createUser s now (insertUserOf (toString fu.id) fu)).1] →
      (getUserByTelegramId t (toString fu.id)).isSome := by
    intro t ht
    unfold getUserByTelegramId at hU ⊢
    rw [ht, find?_append_none hU]
    simp [insertUserOf]
  cases sg with
  | none =>
      simp only [handleUserDirectMessage, hfu]
      rw [userStep_none now (toString m.chatId) fu hU, convStep_none now hC1]
      refine ⟨?_, ?_, ?_, ?_, ?_⟩
      · rw [createMessage_users, createConversation_users,
          createUser_users_fresh now _ hwfU]
        simp
      · rw [createMessage_conversations_length,
          createConversation_conversations_fresh now _ hwfC1]
        simp
      · rw [getUserByTelegramId_createMessage, getUserByTelegramId_createConversation]
        exact husers _ (createUser_users_fresh now _ hwfU)
      · rw [createMessage_conv_lookup_isSome]
        unfold getConversationByTelegramUserId at hC ⊢
        rw [createConversation_conversations_fresh now _ hwfC1, createUser_conversations,
          find?_append_none hC]
        simp
      · intro hne
        simp [welcomeCount, isWelcomeCall]
  | some sgid =>
      have hne' : ∀ (h : some sgid ≠ some (toString m.chatId)), sgid ≠ toString m.chatId :=
        fun h hEq => h (by rw [hEq])
      simp only [handleUserDirectMessage, hfu]
      rw [userStep_none now (toString m.chatId) fu hU, convStep_none now hC1]
      refine ⟨?_, ?_, ?_, ?_, ?_⟩
      · rw [threadStep_users_length, createMessage_users, createConversation_users,
          createUser_users_fresh now _ hwfU]
        simp
      · rw [threadStep_conversations_length, createMessage_conversations_length,
          createConversation_conversations_fresh now _ hwfC1]
        simp
      · rw [threadStep_user_lookup, getUserByTelegramId_createMessage,
          getUserByTelegramId_createConversation]
        exact husers _ (createUser_users_fresh now _ hwfU)
      · rw [threadStep_conv_lookup, createMessage_conv_lookup_isSome]
        unfold getConversationByTelegramUserId at hC ⊢
        rw [createConversation_conversations_fresh now _ hwfC1, createUser_conversations,
          find?_append_none hC]
        simp
      · intro hne
        rw [welcomeCount_append, welcomeCount_append, welcomeCount_append,
          welcomeCount_welcome, welcomeCount_textForward, welcomeCount_userMedia,
          welcomeCount_threadCalls env now _ fu _ _ _ (hne' hne)]

/-- Processing a direct message from a sender whose `User` and
`Conversation` already exist: no user and no conversation is created and
no welcome message is sent. -/
lemma handleUser_existing_spec (sg : Option String) (env : RouterEnv) (now : Nat)
    (s : MemStorage) (m : TgMessage) (fu : TgUser) (u : User) (c : Conversation)
    (hfu : m.fromUser = some fu)
    (hU : getUserByTelegramId s (toString fu.id) = some u)
    (hC : getConversationByTelegramUserId s (toString fu.id) = some c) :
    (handleUserDirectMessage sg env now s m).1.users.length = s.users.length ∧
    (handleUserDirectMessage sg env now s m).1.conversations.length =
      s.conversations.length ∧
    (sg ≠ some (toString m.chatId) →
      welcomeCount (toString m.chatId) (handleUserDirectMessage sg env now s m).2 = 0) := by
  cases sg with
  | none =>
      simp only [handleUserDirectMessage, hfu]
      rw [userStep_found now (toString m.chatId) fu hU, convStep_found now hC]
      refine ⟨?_, ?_, fun _ => ?_⟩
      · rw [createMessage_users]
      · rw [createMessage_conversations_length]
      · simp [welcomeCount]
  | some sgid =>
      have hne' : ∀ (h : some sgid ≠ some (toString m.chatId)), sgid ≠ toString m.chatId :=
        fun h hEq => h (by rw [hEq])
      simp only [handleUserDirectMessage, hfu]
      rw [userStep_found now (toString m.chatId) fu hU, convStep_found now hC]
      refine ⟨?_, ?_, fun hne => ?_⟩
      · rw [threadStep_users_length, createMessage_users]
      · rw [threadStep_conversations_length, createMessage_conversations_length]
      · rw [show welcomeCount (toString m.chatId)
            (([] : List OutCall) ++ _ ++ _ ++ _) = _ from welcomeCount_append _ _ _,
          welcomeCount_append, welcomeCount_append]
        rw [welcomeCount_nil, welcomeCount_textForward, welcomeCount_userMedia,
          welcomeCount_threadCalls env now _ fu _ _ _ (hne' hne)]

/- More lookup/projection transport lemmas. -/
@[simp] lemma getConversation_createUser (s : MemStorage) (now : Nat) (iu : InsertUser)
    (id : Nat) : getConversation ((createUser s now iu).2) id = getConversation s id := rfl

@[simp] lemma getConversation_createSupportIssue (s : MemStorage) (now : Nat)
    (ii : InsertSupportIssue) (id : Nat) :
    getConversation ((createSupportIssue s now ii).2) id = getConversation s id := rfl

@[simp] lemma getConversation_updateUser (s : MemStorage) (uid : Nat) (up : UserUpdates)
    (id : Nat) : getConversation ((updateUser s uid up).2) id = getConversation s id := by
  unfold getConversation
  rw [updateUser_conversations]

@[simp] lemma applyConvUpdates_threadIdUpdate (c : Conversation) (t : String) :
    applyConvUpdates c (threadIdUpdate t) = { c with threadId := some t } := rfl

@[simp] lemma userStep_conversations (s : MemStorage) (now : Nat) (chat tid : String)
    (fu : TgUser) : ((userStep s now chat tid fu).2.1).conversations = s.conversations := by
  unfold userStep
  cases h : getUserByTelegramId s tid <;> simp [h]

@[simp] lemma userStep_supportIssues (s : MemStorage) (now : Nat) (chat tid : String)
    (fu : TgUser) : ((userStep s now chat tid fu).2.1).supportIssues = s.supportIssues := by
  unfold userStep
  cases h : getUserByTelegramId s tid <;> simp [h]

@[simp] lemma userStep_messages (s : MemStorage) (now : Nat) (chat tid : String)
    (fu : TgUser) : ((userStep s now chat tid fu).2.1).messages = s.messages := by
  unfold userStep
  cases h : getUserByTelegramId s tid <;> simp [h]

@[simp] lemma userStep_currentMessageId (s : MemStorage) (now : Nat) (chat tid : String)
    (fu : TgUser) :
    ((userStep s now chat tid fu).2.1).currentMessageId = s.currentMessageId := by
  unfold userStep
  cases h : getUserByTelegramId s tid <;> simp [h]

@[simp] lemma userStep_currentSupportIssueId (s : MemStorage) (now : Nat)
    (chat tid : String) (fu : TgUser) :
    ((userStep s now chat tid fu).2.1).currentSupportIssueId = s.currentSupportIssueId := by
  unfold userStep
  cases h : getUserByTelegramId s tid <;> simp [h]

@[simp] lemma userStep_currentConversationId (s : MemStorage) (now : Nat)
    (chat tid : String) (fu : TgUser) :
    ((userStep s now chat tid fu).2.1).currentConversationId = s.currentConversationId := by
  unfold userStep
  cases h : getUserByTelegramId s tid <;> simp [h]

@[simp] lemma convStep_users (s : MemStorage) (now : Nat) (tid : String) :
    ((convStep s now tid).2).users = s.users := by
  unfold convStep
  cases h : getConversationByTelegramUserId s tid <;> simp [h]

@[simp] lemma convStep_messages (s : MemStorage) (now : Nat) (tid : String) :
    ((convStep s now tid).2).messages = s.messages := by
  unfold convStep
  cases h : getConversationByTelegramUserId s tid <;> simp [h]

@[simp] lemma convStep_supportIssues (s : MemStorage) (now : Nat) (tid : String) :
    ((convStep s now tid).2).supportIssues = s.supportIssues := by
  unfold convStep
  cases h : getConversationByTelegramUserId s tid <;> simp [h]

@[simp] lemma convStep_currentMessageId (s : MemStorage) (now : Nat) (tid : String) :
    ((convStep s now tid).2).currentMessageId = s.currentMessageId := by
  unfold convStep
  cases h : getConversationByTelegramUserId s tid <;> simp [h]

@[simp] lemma convStep_currentSupportIssueId (s : MemStorage) (now : Nat) (tid : String) :
    ((convStep s now tid).2).currentSupportIssueId = s.currentSupportIssueId := by
  unfold convStep
  cases h : getConversationByTelegramUserId s tid <;> simp [h]

/-! ## Media-send counting and the shape of the forward-call lists -/

def mediaSendCount (calls : List OutCall) : Nat := calls.countP isMediaSend

@[simp] lemma mediaSendCount_nil : mediaSendCount [] = 0 := rfl

lemma mediaSendCount_append (l₁ l₂ : List OutCall) :
    mediaSendCount (l₁ ++ l₂) = mediaSendCount l₁ + mediaSendCount l₂ :=
  List.countP_append _ _ _

@[simp] lemma mediaSendCount_userStep (s : MemStorage) (now : Nat) (chat tid : String)
    (fu : TgUser) : mediaSendCount ((userStep s now chat tid fu).2.2) = 0 := by
  unfold userStep
  cases h : getUserByTelegramId s tid <;> simp [h, mediaSendCount, isMediaSend]

@[simp] lemma mediaSendCount_threadStep (env : RouterEnv) (now : Nat) (s : MemStorage)
    (sgid : String) (fu : TgUser) (tid : String) (user : User) (conv : Conversation) :
    mediaSendCount ((threadStep env now s sgid fu tid user conv).2.2) = 0 := by
  rw [threadStep_calls]
  split <;> simp [mediaSendCount, isMediaSend]

@[simp] lemma mediaSendCount_textForward (sgid : String) (fu : TgUser)
    (conv : Conversation) (m : TgMessage) :
    mediaSendCount (textForwardCalls sgid fu conv m) = 0 := by
  cases h : m.text <;> simp [textForwardCalls, h, mediaSendCount, isMediaSend]

lemma userMediaForwardCalls_no_pdv (sgid : String) (fu : TgUser) (conv : Conversation)
    (m : TgMessage) (hp : m.photo = none) (hd : m.document = none)
    (hv : m.video = none) : userMediaForwardCalls sgid fu conv m = [] := by
  unfold userMediaForwardCalls getFileId
  cases ha : m.audio <;> cases hw : m.voice <;> simp [hp, hd, hv, ha, hw]

lemma userMediaForwardCalls_photo (sgid : String) (fu : TgUser) (conv : Conversation)
    (m : TgMessage) {fid : String} (hp : m.photo = some fid) :
    userMediaForwardCalls sgid fu conv m =
      [OutCall.sendPhoto sgid fid (some (captionUser fu m.caption))
        (some (parseThreadRef conv.threadId))] := by
  unfold userMediaForwardCalls getFileId
  simp [hp]

lemma userMediaForwardCalls_document (sgid : String) (fu : TgUser) (conv : Conversation)
    (m : TgMessage) {fid : String} (hp : m.photo = none) (hd : m.document = some fid) :
    userMediaForwardCalls sgid fu conv m =
      [OutCall.sendDocument sgid fid (some (captionUser fu m.caption))
        (some (parseThreadRef conv.threadId))] := by
  unfold userMediaForwardCalls getFileId
  simp [hp, hd]

lemma userMediaForwardCalls_video (sgid : String) (fu : TgUser) (conv : Conversation)
    (m : TgMessage) {fid : String} (hp : m.photo = none) (hd : m.document = none)
    (hv : m.video = some fid) :
    userMediaForwardCalls sgid fu conv m =
      [OutCall.sendVideo sgid fid (some (captionUser fu m.caption))
        (some (parseThreadRef conv.threadId))] := by
  unfold userMediaForwardCalls getFileId
  simp [hp, hd, hv]

lemma adminMediaForwardCalls_no_pdv (dest : String) (m : TgMessage)
    (hp : m.photo = none) (hd : m.document = none) (hv : m.video = none) :
    adminMediaForwardCalls dest m = [] := by
  unfold adminMediaForwardCalls getFileId
  cases ha : m.audio <;> cases hw : m.voice <;> simp [hp, hd, hv, ha, hw]

lemma adminMediaForwardCalls_photo (dest : String) (m : TgMessage) {fid : String}
    (hp : m.photo = some fid) :
    adminMediaForwardCalls dest m = [OutCall.sendPhoto dest fid m.caption none] := by
  unfold adminMediaForwardCalls getFileId
  simp [hp]

lemma adminMediaForwardCalls_document (dest : String) (m : TgMessage) {fid : String}
    (hp : m.photo = none) (hd : m.document = some fid) :
    adminMediaForwardCalls dest m = [OutCall.sendDocument dest fid m.caption none] := by
  unfold adminMediaForwardCalls getFileId
  simp [hp, hd]

lemma adminMediaForwardCalls_video (dest : String) (m : TgMessage) {fid : String}
    (hp : m.photo = none) (hd : m.document = none) (hv : m.video = some fid) :
    adminMediaForwardCalls dest m = [OutCall.sendVideo dest fid m.caption none] := by
  unfold adminMediaForwardCalls getFileId
  simp [hp, hd, hv]

/-- The support-group handler when the reply resolves to a conversation. -/
lemma handleSupport_found {s : MemStorage} {m : TgMessage} {fu : TgUser} {rid : Nat}
    {conv : Conversation} (now : Nat) (hfu : m.fromUser = some fu)
    (hr : m.reply_to_message = some rid)
    (hconv : getConversationByThreadId s (toString rid) = some conv) :
    handleSupportGroupMessage now s m =
      ((createMessage s now (adminMessageData conv.id fu m)).2,
        (match m.text with
         | some t => [OutCall.sendText conv.telegramUserId t none]
         | none => []) ++ adminMediaForwardCalls conv.telegramUserId m) := by
  simp [handleSupportGroupMessage, hfu, hr, hconv]

/-- Every processed inbound end-user message stores exactly one new
`Message` carrying the captured text and media. -/
lemma handleUser_stores_message (sg : Option String) (env : RouterEnv) (now : Nat)
    (s : MemStorage) (m : TgMessage) (fu : TgUser)
    (hfu : m.fromUser = some fu)
    (hwfM : ∀ x ∈ s.messages, x.id < s.currentMessageId) :
    ∃ msg, (handleUserDirectMessage sg env now s m).1.messages = s.messages ++ [msg] ∧
      msg.senderType = "user" ∧ msg.content = m.text ∧
      msg.mediaType = getMediaType m ∧ msg.mediaUrl = getMediaUrl m := by
  have hwfM' : ∀ x ∈ ((convStep ((userStep s now (toString m.chatId) (toString fu.id) fu).2.1)
        now (toString fu.id)).2).messages,
      x.id < ((convStep ((userStep s now (toString m.chatId) (toString fu.id) fu).2.1)
        now (toString fu.id)).2).currentMessageId := by
    simpa using hwfM
  cases sg with
  | none =>
      simp only [handleUserDirectMessage, hfu]
      refine ⟨{ id := s.currentMessageId
                conversationId := (convStep ((userStep s now (toString m.chatId)
                  (toString fu.id) fu).2.1) now (toString fu.id)).1.id
                telegramMessageId := some (toString m.message_id)
                senderId := toString fu.id
                senderType := "user"
                senderName := some (displayName fu)
                content := m.text
                mediaType := getMediaType m
                mediaUrl := getMediaUrl m
                sentAt := now }, ?_, rfl, rfl, rfl, rfl⟩
      rw [createMessage_messages_fresh now _ hwfM']
      simp [inboundMessageData]
  | some sgid =>
      simp only [handleUserDirectMessage, hfu]
      refine ⟨{ id := s.currentMessageId
                conversationId := (convStep ((userStep s now (toString m.chatId)
                  (toString fu.id) fu).2.1) now (toString fu.id)).1.id
                telegramMessageId := some (toString m.message_id)
                senderId := toString fu.id
                senderType := "user"
                senderName := some (displayName fu)
                content := m.text
                mediaType := getMediaType m
                mediaUrl := getMediaUrl m
                sentAt := now }, ?_, rfl, rfl, rfl, rfl⟩
      rw [threadStep_messages, createMessage_messages_fresh now _ hwfM']
      simp [inboundMessageData]

/-! ## Concrete inputs used by witnesses and counterexamples -/

def exUser : TgUser := ⟨1, none, "Alice", none, none, false⟩
def exAdmin : TgUser := ⟨2, some "bob", "Bob", none, none, false⟩
def exMsgText : TgMessage := ⟨5, 1, some exUser, some "hi", none, none, none, none, none, none, none⟩
def exMsgSecond : TgMessage := ⟨7, 1, some exUser, some "again", none, none, none, none, none, none, none⟩
def exMsgNoFrom : TgMessage := ⟨5, 1, none, some "hi", none, none, none, none, none, none, none⟩
def exMsgPhotoDoc : TgMessage :=
  ⟨8, 1, some exUser, none, some "cap", some "PH", some "DOC", none, none, none, none⟩
def exMsgVoice : TgMessage := ⟨9, 1, some exUser, none, none, none, none, none, none, some "V", none⟩
def exReplyStray : TgMessage :=
  ⟨6, -100, some exAdmin, some "hm", none, none, none, none, none, none, some 998⟩
def exEnvFail : RouterEnv := ⟨none, 100, false⟩
def exEnvOk : RouterEnv := ⟨none, 100, true⟩
def exConv : Conversation := ⟨1, "1", none, "open", 0, 0⟩
/-- A store holding one conversation for user "1" with no thread reference. -/
def exConvStore : MemStorage := (createConversation emptyStorage 0 ⟨"1", none, "open"⟩).2
/-- A store holding one conversation for user "1" with thread reference "999". -/
def exThreadStore : MemStorage := (createConversation emptyStorage 0 ⟨"1", some "999", "open"⟩).2
def dupInsertUser : InsertUser := ⟨"42", none, "Bob", none, none, false, none, none⟩

/-! ## Claim theorems -/

/-- Claim C10: an inbound message without a sender field is a no-op in both
handlers, and a support-channel message that is not a reply is a no-op:
the store is returned unchanged and no outbound call is made. -/
theorem c10_guard_noop (sg : Option String) (env : RouterEnv) (now : Nat)
    (s : MemStorage) (m : TgMessage) :
    (m.fromUser = none →
      handleUserDirectMessage sg env now s m = (s, []) ∧
      handleSupportGroupMessage now s m = (s, [])) ∧
    (m.reply_to_message = none → handleSupportGroupMessage now s m = (s, [])) := by
  refine ⟨fun h => ⟨?_, ?_⟩, fun h => ?_⟩
  · simp [handleUserDirectMessage, h]
  · cases hr : m.reply_to_message <;> simp [handleSupportGroupMessage, h, hr]
  · cases hf : m.fromUser <;> simp [handleSupportGroupMessage, h, hf]

theorem c10_witness :
    exMsgNoFrom.fromUser = none ∧
    handleUserDirectMessage (some "g") exEnvOk 0 emptyStorage exMsgNoFrom =
      (emptyStorage, []) ∧
    handleSupportGroupMessage 0 emptyStorage exMsgNoFrom = (emptyStorage, []) :=
  ⟨rfl, ((c10_guard_noop (some "g") exEnvOk 0 emptyStorage exMsgNoFrom).1 rfl).1,
    ((c10_guard_noop (some "g") exEnvOk 0 emptyStorage exMsgNoFrom).1 rfl).2⟩

/-- Claim C5: a support-channel reply whose replied-to message id matches no
conversation's thread reference is a no-op: the store is unchanged (so no
`Message` is created) and no outbound call is made. -/
theorem c5_unmatched_reply_noop (now : Nat) (s : MemStorage) (m : TgMessage)
    (fu : TgUser) (rid : Nat)
    (hfu : m.fromUser = some fu) (hr : m.reply_to_message = some rid)
    (hnone : getConversationByThreadId s (toString rid) = none) :
    handleSupportGroupMessage now s m = (s, []) := by
  simp [handleSupportGroupMessage, hfu, hr, hnone]

theorem c5_witness :
    getConversationByThreadId exThreadStore (toString 998) = none ∧
    handleSupportGroupMessage 0 exThreadStore exReplyStray = (exThreadStore, []) :=
  ⟨by decide, c5_unmatched_reply_noop 0 exThreadStore exReplyStray exAdmin 998 rfl rfl
    (by decide)⟩

/-- Claim C6: at most one media kind is captured per inbound message, chosen
by the fixed precedence photo > document > video > audio > voice (in
particular photo + document yields "photo"), and the stored `Message`
record carries exactly that media kind. -/
theorem c6_media_precedence (sg : Option String) (env : RouterEnv) (now : Nat)
    (s : MemStorage) (m : TgMessage) (fu : TgUser) :
    (m.photo.isSome → getMediaType m = some "photo") ∧
    (m.photo = none → m.document.isSome → getMediaType m = some "document") ∧
    (m.photo = none → m.document = none → m.video.isSome →
      getMediaType m = some "video") ∧
    (m.photo = none → m.document = none → m.video = none → m.audio.isSome →
      getMediaType m = some "audio") ∧
    (m.photo = none → m.document = none → m.video = none → m.audio = none →
      m.voice.isSome → getMediaType m = some "voice") ∧
    (m.photo = none → m.document = none → m.video = none → m.audio = none →
      m.voice = none → getMediaType m = none) ∧
    (m.fromUser = some fu → (∀ x ∈ s.messages, x.id < s.currentMessageId) →
      ∃ msg, (handleUserDirectMessage sg env now s m).1.messages = s.messages ++ [msg] ∧
        msg.mediaType = getMediaType m) := by
  refine ⟨?_, ?_, ?_, ?_, ?_, ?_, fun hfu hwf => ?_⟩
  · intro h; simp [getMediaType, h]
  · intro h1 h2; simp [getMediaType, h1, h2]
  · intro h1 h2 h3; simp [getMediaType, h1, h2, h3]
  · intro h1 h2 h3 h4; simp [getMediaType, h1, h2, h3, h4]
  · intro h1 h2 h3 h4 h5; simp [getMediaType, h1, h2, h3, h4, h5]
  · intro h1 h2 h3 h4 h5; simp [getMediaType, h1, h2, h3, h4, h5]
  · obtain ⟨msg, h1, _, _, h4, _⟩ :=
      handleUser_stores_message sg env now s m fu hfu hwf
    exact ⟨msg, h1, h4⟩

theorem c6_witness :
    exMsgPhotoDoc.photo.isSome ∧ exMsgPhotoDoc.document.isSome ∧
    getMediaType exMsgPhotoDoc = some "photo" ∧
    (∃ msg, (handleUserDirectMessage (some "g") exEnvOk 0 emptyStorage
        exMsgPhotoDoc).1.messages = emptyStorage.messages ++ [msg] ∧
      msg.mediaType = getMediaType exMsgPhotoDoc) :=
  ⟨by decide, by decide,
    (c6_media_precedence (some "g") exEnvOk 0 emptyStorage exMsgPhotoDoc exUser).1
      (by decide),
    (c6_media_precedence (some "g") exEnvOk 0 emptyStorage exMsgPhotoDoc
      exUser).2.2.2.2.2.2 rfl (by simp [emptyStorage])⟩

/-- Claim C8: updating an existing conversation with the empty field set
refreshes `lastMessageAt` to the current clock and leaves every other
field (id, owning user id, thread reference, status, creation timestamp)
unchanged, both in the returned record and in the store. -/
theorem c8_empty_update_refreshes_timestamp (s : MemStorage) (now cid : Nat)
    (c : Conversation) (h : getConversation s cid = some c) :
    ∃ c', (updateConversation s now cid noConvUpdates).1 = some c' ∧
      c'.id = c.id ∧ c'.telegramUserId = c.telegramUserId ∧
      c'.threadId = c.threadId ∧ c'.status = c.status ∧
      c'.createdAt = c.createdAt ∧ c'.lastMessageAt = now ∧
      getConversation ((updateConversation s now cid noConvUpdates).2) cid = some c' := by
  refine ⟨{ c with lastMessageAt := now }, ?_, rfl, rfl, rfl, rfl, rfl, rfl, ?_⟩
  · simp [updateConversation, h]
  · simpa using getConversation_updateConversation_same h

theorem c8_witness :
    getConversation exConvStore 1 = some exConv ∧
    (∃ c', (updateConversation exConvStore 9 1 noConvUpdates).1 = some c' ∧
      c'.threadId = exConv.threadId ∧ c'.status = exConv.status ∧
      c'.lastMessageAt = 9) := by
  obtain ⟨c', h1, _, _, h3, h4, _, h6, _⟩ :=
    c8_empty_update_refreshes_timestamp exConvStore 9 1 exConv (by decide)
  exact ⟨by decide, c', h1, h3, h4, h6⟩

/-- Claim C9 (recording the code bug): `MemStorage.createUser` performs no
uniqueness check on the external telegram id — creating a second user with
a telegram id already on record succeeds and stores a duplicate, although
the schema declares `telegram_id` unique.  Here both creates succeed and
the store ends with two users whose external id is "42". -/
theorem c9_duplicate_telegramId_create_succeeds :
    ((createUser ((createUser emptyStorage 0 dupInsertUser).2) 1 dupInsertUser).2.users.map
      User.telegramId) = ["42", "42"] ∧
    (createUser ((createUser emptyStorage 0 dupInsertUser).2) 1 dupInsertUser).1.id = 2 := by
  decide

/-- Claim C2 is false on the code: when thread creation fails the
conversation keeps a null thread reference, yet the inbound text is still
forwarded to the support channel (with reply target `parseInt('0') = 0`).
Concretely: processing "hi" with `createForumTopic` failing leaves the
only conversation with `threadId = none` while the trace contains the
forwarded text to the channel. -/
theorem c2_counterexample :
    ((handleUserDirectMessage (some "g") exEnvFail 0 emptyStorage exMsgText).1.conversations.map
      Conversation.threadId) = [none] ∧
    OutCall.sendText "g" (fwdTextUser exUser "hi") (some 0) ∈
      (handleUserDirectMessage (some "g") exEnvFail 0 emptyStorage exMsgText).2 := by
  decide

/-- Claim C2 (amended): whenever a support channel is configured and the
inbound event carries text, the text is forwarded to the channel prefixed
with the sender's display name; the reply target is the conversation's
thread reference when one exists (pre-existing case below), and 0 when the
conversation has no thread reference and thread creation fails. -/
theorem c2_amended_text_forward (sgid : String) (env : RouterEnv) (now : Nat)
    (s : MemStorage) (m : TgMessage) (fu : TgUser) (t : String)
    (hfu : m.fromUser = some fu) (ht : m.text = some t) :
    (∃ r, OutCall.sendText sgid (fwdTextUser fu t) (some r) ∈
      (handleUserDirectMessage (some sgid) env now s m).2) ∧
    (∀ conv tRef, getConversationByTelegramUserId s (toString fu.id) = some conv →
      conv.threadId = some tRef →
      OutCall.sendText sgid (fwdTextUser fu t) (some (parseThreadRef (some tRef))) ∈
        (handleUserDirectMessage (some sgid) env now s m).2) ∧
    (∀ conv, getConversationByTelegramUserId s (toString fu.id) = some conv →
      conv.threadId = none → env.createTopicOk = false →
      OutCall.sendText sgid (fwdTextUser fu t) (some 0) ∈
        (handleUserDirectMessage (some sgid) env now s m).2) := by
  have hmem : ∀ (conv2 : Conversation) (c1 c2 c3 : List OutCall),
      OutCall.sendText sgid (fwdTextUser fu t) (some (parseThreadRef conv2.threadId)) ∈
        c1 ++ c2 ++ textForwardCalls sgid fu conv2 m ++ c3 := by
    intro conv2 c1 c2 c3
    simp [textForwardCalls, ht, List.mem_append]
  refine ⟨?_, ?_, ?_⟩
  · simp only [handleUserDirectMessage, hfu]
    exact ⟨_, hmem _ _ _ _⟩
  · intro conv tRef hconv hthread
    have hconv1 : getConversationByTelegramUserId
        ((userStep s now (toString m.chatId) (toString fu.id) fu).2.1)
        (toString fu.id) = some conv := by
      rw [getConversationByTelegramUserId_congr (userStep_conversations _ _ _ _ _) _]
      exact hconv
    simp only [handleUserDirectMessage, hfu]
    rw [convStep_found now hconv1]
    have hfst : (threadStep env now
        ((createMessage ((userStep s now (toString m.chatId) (toString fu.id) fu).2.1) now
          (inboundMessageData conv.id (toString fu.id) fu m)).2) sgid fu (toString fu.id)
        ((userStep s now (toString m.chatId) (toString fu.id) fu).1) conv).1 = conv := by
      rw [threadStep_fst]
      simp [hthread]
    rw [hfst]
    simpa [hthread] using hmem conv _ _ _
  · intro conv hconv hthread hnok
    have hconv1 : getConversationByTelegramUserId
        ((userStep s now (toString m.chatId) (toString fu.id) fu).2.1)
        (toString fu.id) = some conv := by
      rw [getConversationByTelegramUserId_congr (userStep_conversations _ _ _ _ _) _]
      exact hconv
    simp only [handleUserDirectMessage, hfu]
    rw [convStep_found now hconv1]
    have hfst : (threadStep env now
        ((createMessage ((userStep s now (toString m.chatId) (toString fu.id) fu).2.1) now
          (inboundMessageData conv.id (toString fu.id) fu m)).2) sgid fu (toString fu.id)
        ((userStep s now (toString m.chatId) (toString fu.id) fu).1) conv).1 = conv := by
      rw [threadStep_fst]
      simp [hnok]
    rw [hfst]
    have h0 : parseThreadRef conv.threadId = 0 := by rw [hthread]; rfl
    simpa [h0] using hmem conv _ _ _

theorem c2_witness :
    getConversationByTelegramUserId exConvStore (toString 1) = some exConv ∧
    exConv.threadId = none ∧ exEnvFail.createTopicOk = false ∧
    OutCall.sendText "g" (fwdTextUser exUser "hi") (some 0) ∈
      (handleUserDirectMessage (some "g") exEnvFail 0 exConvStore exMsgText).2 :=
  ⟨by decide, rfl, rfl,
    (c2_amended_text_forward "g" exEnvFail 0 exConvStore exMsgText exUser "hi"
      rfl rfl).2.2 exConv (by decide) rfl rfl⟩

/-- Claim C1: a direct message from a sender with no `User` on record (and
no conversation for that external id) creates exactly one `User` and one
`Conversation` and sends exactly one welcome message to that chat; a
second message from the same external id creates no further user or
conversation and sends no further welcome.  The two inequality hypotheses
say the messages are direct messages (their chat is not the configured
support channel), which is how `handleIncomingMessage` dispatches here. -/
theorem c1_new_user_welcomed_once (sg : Option String) (env env2 : RouterEnv)
    (now now2 : Nat) (s : MemStorage) (m m2 : TgMessage) (fu fu2 : TgUser)
    (hfu : m.fromUser = some fu) (hfu2 : m2.fromUser = some fu2)
    (hid : fu2.id = fu.id)
    (hwfU : ∀ u ∈ s.users, u.id < s.currentUserId)
    (hwfC : ∀ c ∈ s.conversations, c.id < s.currentConversationId)
    (hU : getUserByTelegramId s (toString fu.id) = none)
    (hC : getConversationByTelegramUserId s (toString fu.id) = none)
    (hne : sg ≠ some (toString m.chatId)) (hne2 : sg ≠ some (toString m2.chatId)) :
    (handleUserDirectMessage sg env now s m).1.users.length = s.users.length + 1 ∧
    (handleUserDirectMessage sg env now s m).1.conversations.length =
      s.conversations.length + 1 ∧
    welcomeCount (toString m.chatId) (handleUserDirectMessage sg env now s m).2 = 1 ∧
    (handleUserDirectMessage sg env2 now2 (handleUserDirectMessage sg env now s m).1
      m2).1.users.length = (handleUserDirectMessage sg env now s m).1.users.length ∧
    (handleUserDirectMessage sg env2 now2 (handleUserDirectMessage sg env now s m).1
      m2).1.conversations.length =
      (handleUserDirectMessage sg env now s m).1.conversations.length ∧
    welcomeCount (toString m2.chatId) (handleUserDirectMessage sg env2 now2
      (handleUserDirectMessage sg env now s m).1 m2).2 = 0 := by
  obtain ⟨h1, h2, h3, h4, h5⟩ := handleUser_fresh_spec sg env now s m fu hfu hwfU hwfC hU hC
  have htid : toString fu2.id = toString fu.id := by rw [hid]
  obtain ⟨u, hu⟩ := Option.isSome_iff_exists.mp h3
  obtain ⟨c, hc⟩ := Option.isSome_iff_exists.mp h4
  have hu2 : getUserByTelegramId (handleUserDirectMessage sg env now s m).1
      (toString fu2.id) = some u := by rw [htid]; exact hu
  have hc2 : getConversationByTelegramUserId (handleUserDirectMessage sg env now s m).1
      (toString fu2.id) = some c := by rw [htid]; exact hc
  obtain ⟨e1, e2, e3⟩ := handleUser_existing_spec sg env2 now2
    (handleUserDirectMessage sg env now s m).1 m2 fu2 u c hfu2 hu2 hc2
  exact ⟨h1, h2, h5 hne, e1, e2, e3 hne2⟩

theorem c1_witness :
    (handleUserDirectMessage (some "g") exEnvOk 0 emptyStorage exMsgText).1.users.length =
      emptyStorage.users.length + 1 ∧
    welcomeCount (toString exMsgText.chatId)
      (handleUserDirectMessage (some "g") exEnvOk 0 emptyStorage exMsgText).2 = 1 ∧
    welcomeCount (toString exMsgSecond.chatId)
      (handleUserDirectMessage (some "g") exEnvOk 1
        (handleUserDirectMessage (some "g") exEnvOk 0 emptyStorage exMsgText).1
        exMsgSecond).2 = 0 := by
  obtain ⟨h1, _, h3, _, _, h6⟩ := c1_new_user_welcomed_once (some "g") exEnvOk exEnvOk
    0 1 emptyStorage exMsgText exMsgSecond exUser exUser rfl rfl rfl
    (by simp [emptyStorage]) (by simp [emptyStorage]) rfl rfl (by decide) (by decide)
  exact ⟨h1, h3, h6⟩

/-- Claim C3: for a conversation with no thread reference (and a configured
support channel), a message on which thread creation succeeds appends
exactly one `SupportIssue` with status "pending" bound to that
conversation and stores the new thread reference on it; on thread-creation
failure the thread reference stays null and no issue is created; once a
thread reference is set, processing creates no further issue. -/
theorem c3_support_issue_lifecycle (sgid : String) (env : RouterEnv) (now : Nat)
    (s : MemStorage) (m : TgMessage) (fu : TgUser) (conv : Conversation)
    (hfu : m.fromUser = some fu) (hwf : WFStorage s)
    (hconv : getConversationByTelegramUserId s (toString fu.id) = some conv) :
    (conv.threadId = none → env.createTopicOk = true →
      (∃ issue, (handleUserDirectMessage (some sgid) env now s m).1.supportIssues =
          s.supportIssues ++ [issue] ∧ issue.status = "pending" ∧
          issue.conversationId = conv.id) ∧
      (∃ c', getConversation (handleUserDirectMessage (some sgid) env now s m).1 conv.id =
          some c' ∧ c'.threadId = some (toString env.threadMessageId))) ∧
    (conv.threadId = none → env.createTopicOk = false →
      (handleUserDirectMessage (some sgid) env now s m).1.supportIssues =
        s.supportIssues ∧
      (∃ c', getConversation (handleUserDirectMessage (some sgid) env now s m).1 conv.id =
          some c' ∧ c'.threadId = none)) ∧
    (∀ tRef, conv.threadId = some tRef →
      (handleUserDirectMessage (some sgid) env now s m).1.supportIssues =
        s.supportIssues) := by
  have hfind : s.conversations.find? (fun c => c.telegramUserId == toString fu.id) =
      some conv := hconv
  have hmem := List.mem_of_find?_eq_some hfind
  have hnodup : (s.conversations.map Conversation.id).Nodup := hwf.2.1.1
  have hgc : getConversation s conv.id = some conv := find?_id_of_mem_nodup hnodup hmem
  have hwfI : ∀ i ∈ s.supportIssues, i.id < s.currentSupportIssueId := hwf.2.2.2.2
  have hconv1 : getConversationByTelegramUserId
      ((userStep s now (toString m.chatId) (toString fu.id) fu).2.1)
      (toString fu.id) = some conv := by
    rw [getConversationByTelegramUserId_congr (userStep_conversations _ _ _ _ _) _]
    exact hconv
  have hgc1 : getConversation
      ((userStep s now (toString m.chatId) (toString fu.id) fu).2.1) conv.id = some conv := by
    rw [getConversation_congr (userStep_conversations _ _ _ _ _) _]
    exact hgc
  have hgc3 : getConversation
      ((createMessage ((userStep s now (toString m.chatId) (toString fu.id) fu).2.1) now
        (inboundMessageData conv.id (toString fu.id) fu m)).2) conv.id =
      some { conv with lastMessageAt := now } := createMessage_getConversation_same hgc1
  simp only [handleUserDirectMessage, hfu]
  rw [convStep_found now hconv1]
  refine ⟨fun hthread hok => ?_, fun hthread hnok => ?_, fun tRef hthread => ?_⟩
  · cases hP : env.profilePhotoLink with
    | none =>
        simp only [threadStep, hthread, Option.isNone_none, if_true, hok, hP]
        constructor
        · refine ⟨⟨s.currentSupportIssueId, toString fu.id, conv.id,
            "New Support Request", "pending", now, none, none⟩, ?_, rfl, rfl⟩
          rw [createSupportIssue_issues_fresh now _ (by simpa using hwfI)]
          simp
        · refine ⟨{ conv with threadId := some (toString env.threadMessageId), lastMessageAt := now }, ?_, rfl⟩
          rw [getConversation_createSupportIssue]
          simpa using getConversation_updateConversation_same hgc3
    | some link =>
        simp only [threadStep, hthread, Option.isNone_none, if_true, hok, hP]
        constructor
        · refine ⟨⟨s.currentSupportIssueId, toString fu.id, conv.id,
            "New Support Request", "pending", now, none, none⟩, ?_, rfl, rfl⟩
          rw [createSupportIssue_issues_fresh now _ (by simpa using hwfI)]
          simp
        · refine ⟨{ conv with threadId := some (toString env.threadMessageId), lastMessageAt := now }, ?_, rfl⟩
          rw [getConversation_createSupportIssue]
          have hgcA : getConversation ((updateUser
              ((createMessage ((userStep s now (toString m.chatId) (toString fu.id) fu).2.1)
                now (inboundMessageData conv.id (toString fu.id) fu m)).2)
              ((userStep s now (toString m.chatId) (toString fu.id) fu).1).id
              (profilePhotoUpdate link)).2) conv.id =
              some { conv with lastMessageAt := now } := by
            rw [getConversation_updateUser]; exact hgc3
          simpa using getConversation_updateConversation_same hgcA
  · cases hP : env.profilePhotoLink with
    | none =>
        simp only [threadStep, hthread, Option.isNone_none, if_true, hnok, hP]
        exact ⟨by simp, ⟨{ conv with lastMessageAt := now }, hgc3, by simp [hthread]⟩⟩
    | some link =>
        simp only [threadStep, hthread, Option.isNone_none, if_true, hnok, hP]
        refine ⟨by simp, ⟨{ conv with lastMessageAt := now }, ?_, by simp [hthread]⟩⟩
        simpa using hgc3
  · simp only [threadStep, hthread]
    simp

theorem c3_witness :
    WFStorage exConvStore ∧ exConv.threadId = none ∧ exEnvOk.createTopicOk = true ∧
    (∃ issue, (handleUserDirectMessage (some "g") exEnvOk 5 exConvStore
        exMsgText).1.supportIssues = exConvStore.supportIssues ++ [issue] ∧
      issue.status = "pending" ∧ issue.conversationId = exConv.id) :=
  ⟨by decide, rfl, rfl,
    ((c3_support_issue_lifecycle "g" exEnvOk 5 exConvStore exMsgText exUser exConv
      rfl (by decide) (by decide)).1 rfl rfl).1⟩

/-- Claim C7: in both directions, a message whose media is audio or voice
only (no photo/document/video) produces no media forward at all, while
photo, document and video each produce their forward; in every case the
stored `Message` still records the captured media kind and file id. -/
theorem c7_media_forward_policy (sgid : String) (env : RouterEnv) (now now2 : Nat)
    (s s2 : MemStorage) (m m2 : TgMessage) (fu fu2 : TgUser) (rid : Nat)
    (conv : Conversation) :
    (m.fromUser = some fu →
      ((m.photo = none → m.document = none → m.video = none →
        mediaSendCount (handleUserDirectMessage (some sgid) env now s m).2 = 0) ∧
       (∀ fid, m.photo = some fid →
        ∃ r, OutCall.sendPhoto sgid fid (some (captionUser fu m.caption)) r ∈
          (handleUserDirectMessage (some sgid) env now s m).2) ∧
       (∀ fid, m.photo = none → m.document = some fid →
        ∃ r, OutCall.sendDocument sgid fid (some (captionUser fu m.caption)) r ∈
          (handleUserDirectMessage (some sgid) env now s m).2) ∧
       (∀ fid, m.photo = none → m.document = none → m.video = some fid →
        ∃ r, OutCall.sendVideo sgid fid (some (captionUser fu m.caption)) r ∈
          (handleUserDirectMessage (some sgid) env now s m).2) ∧
       ((∀ x ∈ s.messages, x.id < s.currentMessageId) →
        ∃ msg, (handleUserDirectMessage (some sgid) env now s m).1.messages =
          s.messages ++ [msg] ∧ msg.mediaType = getMediaType m ∧
          msg.mediaUrl = getMediaUrl m))) ∧
    (m2.fromUser = some fu2 → m2.reply_to_message = some rid →
      getConversationByThreadId s2 (toString rid) = some conv →
      ((m2.photo = none → m2.document = none → m2.video = none →
        mediaSendCount (handleSupportGroupMessage now2 s2 m2).2 = 0) ∧
       (∀ fid, m2.photo = some fid →
        OutCall.sendPhoto conv.telegramUserId fid m2.caption none ∈
          (handleSupportGroupMessage now2 s2 m2).2) ∧
       (∀ fid, m2.photo = none → m2.document = some fid →
        OutCall.sendDocument conv.telegramUserId fid m2.caption none ∈
          (handleSupportGroupMessage now2 s2 m2).2) ∧
       (∀ fid, m2.photo = none → m2.document = none → m2.video = some fid →
        OutCall.sendVideo conv.telegramUserId fid m2.caption none ∈
          (handleSupportGroupMessage now2 s2 m2).2) ∧
       ((∀ x ∈ s2.messages, x.id < s2.currentMessageId) →
        ∃ msg, (handleSupportGroupMessage now2 s2 m2).1.messages = s2.messages ++ [msg] ∧
          msg.mediaType = getMediaType m2 ∧ msg.mediaUrl = getMediaUrl m2))) := by
  constructor
  · intro hfu
    refine ⟨?_, ?_, ?_, ?_, ?_⟩
    · intro hp hd hv
      simp only [handleUserDirectMessage, hfu]
      rw [mediaSendCount_append, mediaSendCount_append, mediaSendCount_append,
        userMediaForwardCalls_no_pdv _ _ _ _ hp hd hv]
      simp
    · intro fid hp
      simp only [handleUserDirectMessage, hfu]
      rw [userMediaForwardCalls_photo sgid fu _ m hp]
      exact ⟨_, List.mem_append.mpr (Or.inr (List.mem_singleton_self _))⟩
    · intro fid hp hd
      simp only [handleUserDirectMessage, hfu]
      rw [userMediaForwardCalls_document sgid fu _ m hp hd]
      exact ⟨_, List.mem_append.mpr (Or.inr (List.mem_singleton_self _))⟩
    · intro fid hp hd hv
      simp only [handleUserDirectMessage, hfu]
      rw [userMediaForwardCalls_video sgid fu _ m hp hd hv]
      exact ⟨_, List.mem_append.mpr (Or.inr (List.mem_singleton_self _))⟩
    · intro hwfM
      obtain ⟨msg, h1, _, _, h4, h5⟩ :=
        handleUser_stores_message (some sgid) env now s m fu hfu hwfM
      exact ⟨msg, h1, h4, h5⟩
  · intro hfu2 hr hconv
    refine ⟨?_, ?_, ?_, ?_, ?_⟩
    · intro hp hd hv
      rw [handleSupport_found now2 hfu2 hr hconv]
      simp only [mediaSendCount_append, adminMediaForwardCalls_no_pdv _ _ hp hd hv]
      cases ht : m2.text <;> simp [mediaSendCount, isMediaSend, ht]
    · intro fid hp
      rw [handleSupport_found now2 hfu2 hr hconv,
        adminMediaForwardCalls_photo _ _ hp]
      exact List.mem_append.mpr (Or.inr (List.mem_singleton_self _))
    · intro fid hp hd
      rw [handleSupport_found now2 hfu2 hr hconv,
        adminMediaForwardCalls_document _ _ hp hd]
      exact List.mem_append.mpr (Or.inr (List.mem_singleton_self _))
    · intro fid hp hd hv
      rw [handleSupport_found now2 hfu2 hr hconv,
        adminMediaForwardCalls_video _ _ hp hd hv]
      exact List.mem_append.mpr (Or.inr (List.mem_singleton_self _))
    · intro hwfM
      rw [handleSupport_found now2 hfu2 hr hconv]
      refine ⟨{ id := s2.currentMessageId
                conversationId := conv.id
                telegramMessageId := some (toString m2.message_id)
                senderId := toString fu2.id
                senderType := "admin"
                senderName := some (displayName fu2)
                content := m2.text
                mediaType := getMediaType m2
                mediaUrl := getMediaUrl m2
                sentAt := now2 }, ?_, rfl, rfl⟩
      rw [createMessage_messages_fresh now2 _ hwfM]
      simp [adminMessageData]

theorem c7_witness :
    getMediaType exMsgVoice = some "voice" ∧
    mediaSendCount (handleUserDirectMessage (some "g") exEnvOk 0 emptyStorage
      exMsgVoice).2 = 0 :=
  ⟨by decide,
    ((c7_media_forward_policy "g" exEnvOk 0 0 emptyStorage emptyStorage exMsgVoice
      exMsgVoice exUser exUser 0 exConv).1 rfl).1 rfl rfl rfl⟩

instance : IsTotal Message sentLe := ⟨fun a b => Nat.le_total a.sentAt b.sentAt⟩
instance : IsTrans Message sentLe := ⟨fun _ _ _ h1 h2 => Nat.le_trans h1 h2⟩

/-- A store holding one conversation (id 1) and one message in it. -/
def c4Store : MemStorage :=
  (createMessage ((createConversation emptyStorage 0 ⟨"7", none, "open"⟩).2) 1
    ⟨1, some "10", "7", "user", some "A", some "hi", none, none⟩).2

/-- Claim C4 is false at limit 0: JS `slice(-0)` is `slice(0)`, so a
requested limit of 0 returns all stored messages instead of the last 0.
Here one message is stored for the conversation (more than the limit 0),
yet the retrieval returns it rather than the empty list. -/
theorem c4_counterexample :
    (c4Store.messages.filter (fun msg => msg.conversationId == 1)).length = 1 ∧
    (getMessagesByConversationId c4Store 1 0).length = 1 := by decide

/-- Claim C4 (amended to positive limits): for every positive requested
limit, retrieval by conversation returns messages of that conversation
sorted by send timestamp oldest first; it returns all of them (as a
permutation, and exactly, when insertion order is already send-ordered)
when at most `limit` are stored, and the last `limit` of the send-ordered
sequence when more are stored.  A limit of zero instead returns every
stored message of the conversation. -/
theorem c4_amended_retrieval (s : MemStorage) (cid limit : Nat) (hlim : 0 < limit) :
    List.Sorted sentLe (getMessagesByConversationId s cid limit) ∧
    (∀ x ∈ getMessagesByConversationId s cid limit,
      x ∈ s.messages.filter (fun msg => msg.conversationId == cid)) ∧
    (getMessagesByConversationId s cid limit).length =
      min (s.messages.filter (fun msg => msg.conversationId == cid)).length limit ∧
    ((s.messages.filter (fun msg => msg.conversationId == cid)).length ≤ limit →
      (getMessagesByConversationId s cid limit).Perm
        (s.messages.filter (fun msg => msg.conversationId == cid))) ∧
    (List.Sorted sentLe (s.messages.filter (fun msg => msg.conversationId == cid)) →
      getMessagesByConversationId s cid limit =
        (s.messages.filter (fun msg => msg.conversationId == cid)).drop
          ((s.messages.filter (fun msg => msg.conversationId == cid)).length - limit)) := by
  have hne : (limit == 0) = false := by
    simpa using Nat.pos_iff_ne_zero.mp hlim
  have hres : getMessagesByConversationId s cid limit =
      ((s.messages.filter (fun msg => msg.conversationId == cid)).insertionSort
        sentLe).drop
        (((s.messages.filter (fun msg => msg.conversationId == cid)).insertionSort
          sentLe).length - limit) := by
    unfold getMessagesByConversationId sliceLast
    simp [hne]
  refine ⟨?_, ?_, ?_, ?_, ?_⟩
  · rw [hres]
    exact List.Pairwise.sublist (List.drop_sublist _ _)
      (List.sorted_insertionSort sentLe _)
  · intro x hx
    rw [hres] at hx
    exact (List.perm_insertionSort sentLe _).mem_iff.mp
      ((List.drop_sublist _ _).subset hx)
  · rw [hres, List.length_drop, (List.perm_insertionSort sentLe _).length_eq]
    omega
  · intro hle
    rw [hres]
    have h0 : ((s.messages.filter (fun msg => msg.conversationId == cid)).insertionSort
        sentLe).length - limit = 0 := by
      rw [(List.perm_insertionSort sentLe _).length_eq]; omega
    rw [h0, List.drop_zero]
    exact List.perm_insertionSort sentLe _
  · intro hsort
    rw [hres, List.Sorted.insertionSort_eq hsort]

theorem c4_witness :
    0 < 50 ∧
    (getMessagesByConversationId c4Store 1 50).length =
      min (c4Store.messages.filter (fun msg => msg.conversationId == 1)).length 50 :=
  ⟨by decide, (c4_amended_retrieval c4Store 1 50 (by decide)).2.2.1⟩

end TelegramSupport
